import Mathlib

/-!
Shallow embedding of the fips build-config engine (`mod/config.py`,
`mod/project.py`, `mod/log.py`, `mod/tools/clion.py`, `mod/tools/ninja.py`).

Modelling conventions:
* Python dicts loaded from YAML become association lists `RawCfg` over a
  scalar value type `YVal` (string / bool / None); `cfg[k]` is `pyGet`
  (raising `KeyError` when absent, modelled with `Except Halt`), `k in cfg`
  is `RawCfg.hasKey`, `cfg[k] = v` is `RawCfg.set` (replace in place, else
  append, like a Python dict).
* `log.error msg fatal` prints and, when `fatal` is truthy, exits the
  process with code 10 (`mod/log.py`); process exit and uncaught Python
  exceptions are both modelled by the `Halt` type threaded through
  `Except`.  Printed output is collected in a `List LogMsg`.
* The file system is an explicit `FS` value: a set of directories plus a
  map from file paths to contents.  `os.path.isdir`/`isfile`/`exists`,
  `os.makedirs`, `open(p,'w')`, `shutil.rmtree` become the corresponding
  `FS` operations.
* External collaborators that are not part of this repository's core
  (the `util`/`dep`/`settings` helpers, `glob.glob`, `yaml.load`, the
  subprocess-backed build tools) are supplied by an ambient `Env` record,
  exactly at the interface where the embedded code calls them.
-/

namespace Fips

/-- A scalar YAML/Python value as it occurs in a build config: a string,
a boolean, or Python `None`. -/
inductive YVal
  | str (s : String)
  | vbool (b : Bool)
  | vnone
  deriving DecidableEq, Repr

/-- `str(v)` — how the value renders inside a Python f-string. -/
def YVal.pyStr : YVal → String
  | .str s => s
  | .vbool b => if b then "True" else "False"
  | .vnone => "None"

/-- A raw config object: a Python dict as an ordered association list. -/
abbrev RawCfg := List (String × YVal)

/-- `k in cfg` (Python dict membership). -/
def RawCfg.hasKey (cfg : RawCfg) (k : String) : Bool :=
  cfg.any (fun kv => kv.1 = k)

/-- First binding of `k`, if any (Python dict read, keys are unique). -/
def RawCfg.get (cfg : RawCfg) (k : String) : Option YVal :=
  (cfg.find? (fun kv => kv.1 = k)).map (·.2)

/-- `cfg[k] = v`: replace the binding in place if the key exists,
otherwise append it (Python dict insertion order). -/
def RawCfg.set (cfg : RawCfg) (k : String) (v : YVal) : RawCfg :=
  if cfg.hasKey k then
    cfg.map (fun kv => if kv.1 = k then (k, v) else kv)
  else
    cfg ++ [(k, v)]

/-- A halted Python process: `sys.exit(code)` (from `log.error` with a
truthy `fatal`) or an uncaught exception. -/
inductive Halt
  | exit (code : Nat)
  | exn (msg : String)
  deriving DecidableEq, Repr

/-- `cfg[k]` — raises `KeyError` when the key is absent. -/
def pyGet (cfg : RawCfg) (k : String) : Except Halt YVal :=
  match cfg.get k with
  | some v => .ok v
  | none => .error (.exn ("KeyError: " ++ k))

/-- One line of console output, tagged by the `mod/log.py` function that
produced it. -/
inductive LogMsg
  | error (msg : String)
  | warn (msg : String)
  | info (msg : String)
  | colored (color : String) (msg : String)
  deriving DecidableEq, Repr

/-- `log.YELLOW` -/
def YELLOW : String := "\x1b[33m"
/-- `log.GREEN` -/
def GREEN : String := "\x1b[32m"
/-- `log.RED` -/
def RED : String := "\x1b[31m"

/-- The file system: existing directories and a map from file paths to
their contents. -/
structure FS where
  dirs : List String
  files : List (String × String)
  deriving DecidableEq, Repr

/-- `os.path.isdir` -/
def FS.isdir (fs : FS) (p : String) : Bool := fs.dirs.contains p

/-- Content of a regular file, if it exists. -/
def FS.read (fs : FS) (p : String) : Option String :=
  (fs.files.find? (fun kv => kv.1 = p)).map (·.2)

/-- `os.path.isfile` -/
def FS.isfile (fs : FS) (p : String) : Bool := (fs.read p).isSome

/-- `os.path.exists`: a file or a directory. -/
def FS.pathexists (fs : FS) (p : String) : Bool := fs.isfile p || fs.isdir p

/-- `os.makedirs` -/
def FS.makedirs (fs : FS) (p : String) : FS := { fs with dirs := p :: fs.dirs }

/-- `open(p, 'w')` followed by writing `c`: truncate/overwrite or
create (the order of the path-to-content map is not observable). -/
def FS.write (fs : FS) (p : String) (c : String) : FS :=
  { fs with files := (p, c) :: fs.files.filter (fun kv => !(kv.1 = p : Bool)) }

/-- `shutil.rmtree d`: remove the directory and everything under it. -/
def FS.rmtree (fs : FS) (d : String) : FS :=
  { dirs := fs.dirs.filter (fun p => decide (p ≠ d) && !(d ++ "/").isPrefixOf p),
    files := fs.files.filter (fun kv => !(d ++ "/").isPrefixOf kv.1) }

/-- Split a character list at every occurrence of `sep` (helper for the
`os.path` functions; the result is never empty). -/
def splitChar (sep : Char) : List Char → List (List Char)
  | [] => [[]]
  | c :: rest =>
      match splitChar sep rest with
      | [] => [[]]
      | g :: gs => if c = sep then [] :: g :: gs else (c :: g) :: gs

/-- Join strings with a separator (helper for the `os.path` functions). -/
def joinSep (sep : String) : List String → String
  | [] => ""
  | [x] => x
  | x :: y :: xs => x ++ sep ++ joinSep sep (y :: xs)

/-- `os.path.split`: directory part and file-name part of a path. -/
def path_split (p : String) : String × String :=
  let parts := (splitChar '/' p.data).map String.mk
  (joinSep "/" parts.dropLast, parts.getLastD p)

/-- Root of `os.path.splitext`: the file name with its last extension
removed. -/
def splitext_root (f : String) : String :=
  let parts := (splitChar '.' f.data).map String.mk
  if parts.length ≤ 1 then f else joinSep "." parts.dropLast

/-- Insert a string into an ascending list (helper for `sortStrings`). -/
def insertSorted (x : String) : List String → List String
  | [] => [x]
  | y :: ys => if x ≤ y then x :: y :: ys else y :: insertSorted x ys

/-- Python `list.sort()` on strings: ascending lexicographic order. -/
def sortStrings (xs : List String) : List String := xs.foldr insertSorted []

/-- The ambient collaborators of the embedded code — the `util`, `dep`,
`settings`, `glob`, `yaml` helpers and the subprocess-backed build tools,
supplied exactly at the call boundary where `mod/config.py` and
`mod/project.py` use them. -/
structure Env where
  /-- `util.get_project_name_from_dir` -/
  get_project_name_from_dir : String → String
  /-- `util.get_toolchains_dir` (a `fips-files/toolchains` dir or `None`) -/
  get_toolchains_dir : String → Option String
  /-- `util.get_configs_dir` (a `fips-files/configs` dir or `None`) -/
  get_configs_dir : String → Option String
  /-- success flag of `dep.get_all_imports_exports` -/
  imports_ok : Bool
  /-- ordered `(name, proj_dir)` entries of the imports dict returned by
  `dep.get_all_imports_exports` -/
  imports : List (String × String)
  /-- `glob.glob`, keyed by the full glob pattern string -/
  glob : String → List String
  /-- `yaml.load` on a file's contents: a raw dict or a parse error whose
  payload is the YAML error message -/
  parse : String → Except String RawCfg
  /-- `emscripten.check_exists` -/
  emscripten_exists : Bool
  /-- `android.check_exists` -/
  android_exists : Bool
  /-- `cmake.check_exists` -/
  cmake_exists : Bool
  /-- `make.check_exists` -/
  make_exists : Bool
  /-- `ninja.check_exists` -/
  ninja_exists : Bool
  /-- `xcodebuild.check_exists` -/
  xcodebuild_exists : Bool
  /-- `vscode.check_exists` -/
  vscode_exists : Bool
  /-- `clion.check_exists` -/
  clion_exists : Bool
  /-- `util.get_build_dir fips_dir proj_name cfg_name` -/
  get_build_dir : String → String → String → String
  /-- `util.get_deploy_dir fips_dir proj_name cfg_name` -/
  get_deploy_dir : String → String → String → String
  /-- truthiness of `settings.get(proj_dir, 'ccache')` -/
  ccache : Bool
  /-- `dep.get_policy(proj_dir, 'no_auto_import')` -/
  no_auto_import : Bool
  /-- `xcrun.get_ios_sdk_sysroot()` -/
  ios_sysroot : String
  /-- `xcrun.get_macos_sdk_sysroot()` -/
  macos_sysroot : String
  /-- `settings.get(proj_dir, 'iosteam')`, `none` when falsy -/
  iosteam : Option String
  /-- `settings.get(proj_dir, 'jobs')` -/
  jobs : Nat
  /-- `platform.system() == 'Windows'` -/
  host_windows : Bool
  /-- contents copied by `shutil.copy` of the bundled `ninja.exe` -/
  ninja_exe_content : String
  /-- exit status of the external `cmake` generate invocation performed by
  `cmake.run_gen` (arguments: cfg, build dir, toolchain path, defines) -/
  cmake_run_gen : RawCfg → String → Option String → List (String × String) → Bool
  /-- files written by `vscode.write_workspace_settings` (see the
  spec-modelled definition below) -/
  vscode_files : List (String × String)
  /-- exit status of `make.run_build target build_dir num_jobs` -/
  make_run_build : Option String → String → Nat → Bool
  /-- exit status of `ninja.run_build target build_dir num_jobs` -/
  ninja_run_build : Option String → String → Nat → Bool
  /-- exit status of `xcodebuild.run_build target build_type build_dir num_jobs` -/
  xcodebuild_run_build : Option String → YVal → String → Nat → Bool
  /-- exit status of `cmake.run_build target build_type build_dir num_jobs` -/
  cmake_run_build : Option String → YVal → String → Nat → Bool

/-! ## `mod/config.py` -/

/-- `config.native_platforms`: the non-cross-compiling platforms. -/
def native_platforms : List String := ["osx", "linux", "win32", "win64"]

/-- `config.build_tools`: the valid build tool names. -/
def build_tools : List String :=
  ["make", "ninja", "xcodebuild", "cmake", "vscode_cmake", "clion"]

/-- Python `v in xs` for a config value against a list of strings. -/
def YVal.inStrList (v : YVal) (xs : List String) : Bool :=
  xs.any (fun s => v = .str s)

/-- `config.valid_build_tool` -/
def valid_build_tool (name : YVal) : Bool := name.inStrList build_tools

/-- The "build toolchain file name" step of `config.get_toolchain`: the
explicit `cmake-toolchain` attribute when the config has one, else
`<platform>.toolchain.cmake`. -/
def toolchain_filename (cfg : RawCfg) (plat : YVal) : String :=
  match cfg.get "cmake-toolchain" with
  | some t => t.pyStr
  | none => plat.pyStr ++ ".toolchain.cmake"

/-- Candidate path for the toolchain file in one project's
`fips-files/toolchains` directory (`None` when the project has none):
the body of the `toolchain_path` assignments in `config.get_toolchain`. -/
def toolchain_path_in (env : Env) (proj : String) (toolchain : String) :
    Option String :=
  (env.get_toolchains_dir proj).map (fun d => d ++ "/" ++ toolchain)

/-- Loop of `config.get_toolchain` over the imported projects, followed by
the `for`/`else` fallback to `<fips_dir>/cmake-toolchains`. -/
def get_toolchain_imports (env : Env) (fs : FS) (fips_dir : String)
    (toolchain : String) : List (String × String) → Option String
  | [] =>
      let toolchain_path := fips_dir ++ "/cmake-toolchains/" ++ toolchain
      if fs.isfile toolchain_path then some toolchain_path else none
  | (_, imported_proj_dir) :: rest =>
      match toolchain_path_in env imported_proj_dir toolchain with
      | some toolchain_path =>
          if fs.isfile toolchain_path then some toolchain_path
          else get_toolchain_imports env fs fips_dir toolchain rest
      | none => get_toolchain_imports env fs fips_dir toolchain rest

/-- `config.get_toolchain`: resolve the toolchain file for a config, or
`None` for native platforms / when no layer has the file.  A config with
no `platform` attribute hits a fatal `log.error` (exit 10). -/
def get_toolchain (env : Env) (fs : FS) (fips_dir proj_dir : String)
    (cfg : RawCfg) : List LogMsg × Except Halt (Option String) :=
  match cfg.get "platform" with
  | some p =>
      if p.inStrList native_platforms then ([], .ok none)
      else
        let toolchain := toolchain_filename cfg p
        match toolchain_path_in env proj_dir toolchain with
        | some toolchain_path =>
            if fs.isfile toolchain_path then ([], .ok (some toolchain_path))
            else
              ([], .ok (get_toolchain_imports env fs fips_dir toolchain env.imports))
        | none =>
            ([], .ok (get_toolchain_imports env fs fips_dir toolchain env.imports))
  | none =>
      ([.error "config has no \x27platform\x27 attribute!\x27"], .error (.exit 10))

/-- `config.get_config_dirs`: the config directories of all imports, then
the base installation's `configs` directory. -/
def get_config_dirs (env : Env) (fips_dir proj_dir : String) :
    List LogMsg × List String :=
  let (msgs, dirs) :=
    if fips_dir ≠ proj_dir then
      if env.imports_ok then
        ([], env.imports.filterMap (fun pr => env.get_configs_dir pr.2))
      else
        ([.warn "missing import directories, please run \x27fips fetch\x27"], [])
    else ([], [])
  (msgs, dirs ++ [fips_dir ++ "/configs"])

/-- `res[curDir] = names` on the ordered-dict result of `config.list`. -/
def odSet (res : List (String × List String)) (k : String)
    (v : List String) : List (String × List String) :=
  if res.any (fun kv => kv.1 = k) then
    res.map (fun kv => if kv.1 = k then (k, v) else kv)
  else
    res ++ [(k, v)]

/-- `config.list`: map every config directory to the sorted `.yml` base
names it contains (the `pattern` parameter is never used by the body). -/
def list (env : Env) (fips_dir proj_dir pattern : String) :
    List LogMsg × List (String × List String) :=
  let (msgs, dirs) := get_config_dirs env fips_dir proj_dir
  let res := dirs.foldl
    (fun res curDir =>
      let names := (env.glob (curDir ++ "/*.yml")).map
        (fun path => splitext_root (path_split path).2)
      odSet res curDir (sortStrings names))
    []
  (msgs, res)

/-- Patching step of `config.load` on one successfully parsed file:
inject `path`/`folder`/`name`, then default `generator`,
`generator-platform`, `generator-toolset` and `defines`. -/
def load_patch (path : String) (cfg : RawCfg) : RawCfg :=
  let folder := (path_split path).1
  let fname := (path_split path).2
  let cfg := cfg.set "path" (.str path)
  let cfg := cfg.set "folder" (.str folder)
  let cfg := cfg.set "name" (.str (splitext_root fname))
  let cfg := if cfg.hasKey "generator" then cfg else cfg.set "generator" (.str "Default")
  let cfg := if cfg.hasKey "generator-platform" then cfg else cfg.set "generator-platform" .vnone
  let cfg := if cfg.hasKey "generator-toolset" then cfg else cfg.set "generator-toolset" .vnone
  if cfg.hasKey "defines" then cfg else cfg.set "defines" .vnone

/-- Per-path body of `config.load`: parse, patch, and append unless a
config with the same `name` was already collected.  The `except` branch
evaluates `e.message` on the caught `YAMLError`, an attribute Python 3
exceptions do not have — the invocation halts. -/
def load_one (env : Env) (path : String) (configs : List RawCfg) :
    Except Halt (List RawCfg) :=
  match env.parse path with
  | .ok raw =>
      let cfg := load_patch path raw
      if configs.any (fun c => c.get "name" = cfg.get "name") then .ok configs
      else .ok (configs ++ [cfg])
  | .error _e =>
      .error (.exn "AttributeError: \x27YAMLError\x27 object has no attribute \x27message\x27")

/-- Fold of `config.load` over the matched paths of all directories. -/
def load_paths (env : Env) (paths : List String) (configs : List RawCfg) :
    Except Halt (List RawCfg) :=
  match paths with
  | [] => .ok configs
  | path :: rest =>
      match load_one env path configs with
      | .ok configs2 => load_paths env rest configs2
      | .error h => .error h

/-- `config.load`: load every config matching `pattern` from the layered
config directories, first occurrence of a `name` winning. -/
def load (env : Env) (fips_dir proj_dir pattern : String) :
    List LogMsg × Except Halt (List RawCfg) :=
  let (msgs, dirs) := get_config_dirs env fips_dir proj_dir
  let paths := dirs.flatMap (fun curDir => env.glob (curDir ++ "/" ++ pattern ++ ".yml"))
  (msgs, load_paths env paths [])

/-- `config.check_build_tool`: dispatch to the tool's `check_exists`. -/
def check_build_tool (env : Env) (tool_name : YVal) : Bool :=
  if tool_name = .str "cmake" then env.cmake_exists
  else if tool_name = .str "make" then env.make_exists
  else if tool_name = .str "ninja" then env.ninja_exists
  else if tool_name = .str "xcodebuild" then env.xcodebuild_exists
  else if tool_name = .str "vscode_cmake" then env.vscode_exists
  else if tool_name = .str "clion" then env.clion_exists
  else false

/-- `config.check_sdk`: cross-platform SDK presence; any platform other
than emscripten/android answers yes. -/
def check_sdk (env : Env) (platform_name : YVal) : Bool :=
  if platform_name = .str "emscripten" then env.emscripten_exists
  else if platform_name = .str "android" then env.android_exists
  else true

/-- `config.required_fields` (local list in `check_config_valid`). -/
def required_fields : List String :=
  ["name", "folder", "platform", "generator", "build_tool", "build_type"]

/-- Required-fields loop of `check_config_valid`: one message per missing
field, never short-circuiting; the message interpolates `cfg['path']`
(a `KeyError` if `path` is itself absent). -/
def req_field_check (cfg : RawCfg) (fields : List String)
    (messages : List String) (valid : Bool) :
    Except Halt (List String × Bool) :=
  match fields with
  | [] => .ok (messages, valid)
  | field :: rest =>
      if cfg.hasKey field then req_field_check cfg rest messages valid
      else
        match pyGet cfg "path" with
        | .ok pathv =>
            req_field_check cfg rest
              (messages ++ ["missing field \x27" ++ field ++ "\x27 in \x27" ++ pathv.pyStr ++ "\x27"])
              false
        | .error h => .error h

/-- `config.check_config_valid`: required fields, SDK, build-tool name,
build-tool presence, toolchain — accumulating messages; the SDK check
subscripts `cfg['platform']` and the build-tool checks subscript
`cfg['build_tool']`, raising `KeyError` when those keys are absent. -/
def check_config_valid (env : Env) (fs : FS) (fips_dir proj_dir : String)
    (cfg : RawCfg) (print_errors : Bool) :
    List LogMsg × Except Halt (Bool × List String) :=
  match req_field_check cfg required_fields [] true with
  | .error h => ([], .error h)
  | .ok (messages, valid) =>
    match pyGet cfg "platform" with
    | .error h => ([], .error h)
    | .ok plat =>
      let (messages, valid) :=
        if !check_sdk env plat then
          (messages ++ ["platform sdk for \x27" ++ plat.pyStr ++
            "\x27 not installed (see \x27./fips help setup\x27)"], false)
        else (messages, valid)
      match pyGet cfg "build_tool" with
      | .error h => ([], .error h)
      | .ok bt =>
        match
          (if !valid_build_tool bt then
            match pyGet cfg "path" with
            | .error h => .error h
            | .ok pathv =>
                .ok (messages ++ ["invalid build_tool name \x27" ++ bt.pyStr ++
                  "\x27 in \x27" ++ pathv.pyStr ++ "\x27"], false)
          else .ok (messages, valid) : Except Halt (List String × Bool)) with
        | .error h => ([], .error h)
        | .ok (messages, valid) =>
          let (messages, valid) :=
            if !check_build_tool env bt then
              (messages ++ ["build tool \x27" ++ bt.pyStr ++ "\x27 not found"], false)
            else (messages, valid)
          match
            (if !plat.inStrList native_platforms then
              match (get_toolchain env fs fips_dir proj_dir cfg).2 with
              | .error h => .error h
              | .ok toolchain_path =>
                if toolchain_path = none then
                  match pyGet cfg "name" with
                  | .error h => .error h
                  | .ok namev =>
                      .ok (messages ++ ["toolchain file not found for config \x27" ++
                        namev.pyStr ++ "\x27!"], false)
                else .ok (messages, valid)
            else .ok (messages, valid) : Except Halt (List String × Bool)) with
          | .error h => ([], .error h)
          | .ok (messages, valid) =>
            let logs := if print_errors then messages.map LogMsg.error else []
            (logs, .ok (valid, messages))

deriving instance DecidableEq for Except

/-! ## `mod/tools/clion.py`, `mod/tools/ninja.py` and the vscode writer -/

/-- Content written to `<proj>/.idea/<proj_name>.iml` by
`clion.write_clion_module_files`. -/
def clion_iml_content : String :=
  "<?xml version=\"1.0\" encoding=\"UTF-8\"?>\n" ++
  "<module classpath=\"CMake\" type=\"CPP_MODULE\" version=\"4\" />"

/-- Content written to `<proj>/.idea/misc.xml` by
`clion.write_clion_module_files`. -/
def clion_misc_content : String :=
  "<?xml version=\"1.0\" encoding=\"UTF-8\"?>\n" ++
  "<project version=\"4\">\n" ++
  "  <component name=\"CMakeWorkspace\" IGNORE_OUTSIDE_FILES=\"true\" PROJECT_DIR=\"$PROJECT_DIR$\" />\n" ++
  "</project>"

/-- Content written to `<proj>/.idea/modules.xml` by
`clion.write_clion_module_files`. -/
def clion_modules_content (proj_name : String) : String :=
  "<?xml version=\"1.0\" encoding=\"UTF-8\"?>\n" ++
  "<project version=\"4\">\n" ++
  "  <component name=\"ProjectModuleManager\">\n" ++
  "    <modules>\n" ++
  "      <module fileurl=\"file://$PROJECT_DIR$/.idea/" ++ proj_name ++
    ".iml\" filepath=\"$PROJECT_DIR$/.idea/" ++ proj_name ++ ".iml\" />\n" ++
  "    </modules>\n" ++
  "  </component>\n" ++
  "</project>"

/-- Content written to `<proj>/.idea/workspace.xml` by
`clion.write_clion_workspace_file`. -/
def clion_workspace_content (proj_name cfg_name : String) : String :=
  "<?xml version=\"1.0\" encoding=\"UTF-8\"?>\n" ++
  "<project version=\"4\">\n" ++
  "  <component name=\"CMakeSettings\">\n" ++
  "    <configurations>\n" ++
  "      <configuration PROFILE_NAME=\"Debug\" CONFIG_NAME=\"Debug\" GENERATION_OPTIONS=\"-DFIPS_CONFIG=" ++
    cfg_name ++ "\" GENERATION_DIR=\"$PROJECT_DIR$/../fips-build/" ++ proj_name ++ "/" ++
    cfg_name ++ "\" />\n" ++
  "    </configurations>\n" ++
  "  </component>\n" ++
  "</project>"

/-- `clion.write_clion_module_files`: skip everything when the `.iml`
already exists, otherwise write the `.iml`, `misc.xml` and `modules.xml`
(the latter two unconditionally, even if they already exist). -/
def write_clion_module_files (env : Env) (fs : FS) (proj_dir : String)
    (_cfg : RawCfg) : FS :=
  let proj_name := env.get_project_name_from_dir proj_dir
  let iml_path := proj_dir ++ "/.idea/" ++ proj_name ++ ".iml"
  if fs.pathexists iml_path then fs
  else
    let fs := fs.write iml_path clion_iml_content
    let fs := fs.write (proj_dir ++ "/.idea/misc.xml") clion_misc_content
    fs.write (proj_dir ++ "/.idea/modules.xml") (clion_modules_content proj_name)

/-- `clion.write_clion_workspace_file`: interpolates `cfg['name']` (a
`KeyError` when absent) before the existence check, then writes
`workspace.xml` only when it does not already exist. -/
def write_clion_workspace_file (env : Env) (fs : FS) (proj_dir : String)
    (cfg : RawCfg) : Except Halt FS :=
  let proj_name := env.get_project_name_from_dir proj_dir
  match pyGet cfg "name" with
  | .error h => .error h
  | .ok namev =>
      let ws_path := proj_dir ++ "/.idea/workspace.xml"
      if fs.pathexists ws_path then .ok fs
      else .ok (fs.write ws_path (clion_workspace_content proj_name namev.pyStr))

/-- `clion.write_workspace_settings`: ensure `.idea` exists, then write
the module files and the workspace file. -/
def clion_write_workspace_settings (env : Env) (fs : FS) (proj_dir : String)
    (cfg : RawCfg) : List LogMsg × Except Halt FS :=
  let msgs := [LogMsg.info "=== writing JetBrains CLion config files..."]
  let clion_dir := proj_dir ++ "/.idea"
  let fs := if !fs.isdir clion_dir then fs.makedirs clion_dir else fs
  let fs := write_clion_module_files env fs proj_dir cfg
  (msgs, write_clion_workspace_file env fs proj_dir cfg)

/-- Modelled from the spec: `vscode.write_workspace_settings`
(`mod/tools/vscode.py` is not part of this repository snapshot; only its
caller in `mod/project.py` is).  Per the spec, IDE workspace-file writers
"never overwrite pre-existing IDE files"; the concrete file set it writes
is not specified, so it is the `vscode_files` parameter of `Env`, each
written only when absent. -/
def vscode_write_workspace_settings (env : Env) (fs : FS) : FS :=
  env.vscode_files.foldl
    (fun fs pc => if fs.pathexists pc.1 then fs else fs.write pc.1 pc.2) fs

/-- `ninja.prepare_ninja_tool`: on Windows, copy the bundled `ninja.exe`
into the build directory. -/
def prepare_ninja_tool (env : Env) (fs : FS) (build_dir : String) : FS :=
  if env.host_windows then fs.write (build_dir ++ "/ninja.exe") env.ninja_exe_content
  else fs

/-! ## `mod/project.py` -/

/-- Result of `project.gen_project`: the file system, the console output,
whether the external `cmake` generate (`cmake.run_gen`) and the IDE
writers were invoked, and the returned value (or a halt). -/
structure GenOut where
  fs : FS
  msgs : List LogMsg
  gen_invoked : Bool
  vscode_invoked : Bool
  clion_invoked : Bool
  res : Except Halt Bool
  deriving DecidableEq, Repr

/-- The injected cmake defines computed by `project.gen_project` before
the staleness guard (ccache, auto-import, compile-commands export, Apple
sysroots, iOS team id). -/
def gen_defines (env : Env) (generator plat : YVal) : List (String × String) :=
  let defines := [("FIPS_USE_CCACHE", if env.ccache then "ON" else "OFF")]
  let defines := defines ++ [("FIPS_AUTO_IMPORT", if env.no_auto_import then "OFF" else "ON")]
  let defines :=
    if generator.inStrList ["Ninja", "Unix Makefiles"] then
      defines ++ [("CMAKE_EXPORT_COMPILE_COMMANDS", "ON")]
    else defines
  let defines :=
    if plat = .str "ios" then
      let defines := defines ++ [("CMAKE_OSX_SYSROOT", env.ios_sysroot)]
      match env.iosteam with
      | some team => defines ++ [("FIPS_IOS_TEAMID", team)]
      | none => defines
    else defines
  if plat = .str "osx" then defines ++ [("CMAKE_OSX_SYSROOT", env.macos_sysroot)]
  else defines

/-- Tail of `project.gen_project` past the staleness guard: log, resolve
the toolchain, prepare ninja, run the cmake generate, then the IDE
writers keyed by build tool. -/
def gen_project_generate (env : Env) (fs : FS) (fips_dir proj_dir : String)
    (cfg : RawCfg) (namev : YVal) (build_dir : String)
    (defines : List (String × String)) : GenOut :=
  let msgs := [LogMsg.colored YELLOW ("=== generating: " ++ namev.pyStr)]
  match pyGet cfg "path" with
  | .error h => ⟨fs, msgs, false, false, false, .error h⟩
  | .ok pathv =>
    let msgs := msgs ++ [LogMsg.info ("config file: " ++ pathv.pyStr)]
    match get_toolchain env fs fips_dir proj_dir cfg with
    | (tmsgs, .error h) => ⟨fs, msgs ++ tmsgs, false, false, false, .error h⟩
    | (tmsgs, .ok toolchain_path) =>
      let msgs := msgs ++ tmsgs ++
        match toolchain_path with
        | some tp => [LogMsg.info ("Using Toolchain File: " ++ tp)]
        | none => []
      match pyGet cfg "build_tool" with
      | .error h => ⟨fs, msgs, false, false, false, .error h⟩
      | .ok bt =>
        let fs := if bt = .str "ninja" then prepare_ninja_tool env fs build_dir else fs
        let cmake_result := env.cmake_run_gen cfg build_dir toolchain_path defines
        let vscode_invoked := bt = .str "vscode_cmake"
        let fs := if vscode_invoked then vscode_write_workspace_settings env fs else fs
        if bt = .str "clion" then
          match clion_write_workspace_settings env fs proj_dir cfg with
          | (cmsgs, .error h) => ⟨fs, msgs ++ cmsgs, true, vscode_invoked, true, .error h⟩
          | (cmsgs, .ok fs) => ⟨fs, msgs ++ cmsgs, true, vscode_invoked, true, .ok cmake_result⟩
        else ⟨fs, msgs, true, vscode_invoked, false, .ok cmake_result⟩

/-- `project.gen_project`: compute the injected defines, apply the
staleness guard (`force` / missing build dir / missing `CMakeCache.txt`),
and either return success without touching the adapter or generate. -/
def gen_project (env : Env) (fs : FS) (fips_dir proj_dir : String)
    (cfg : RawCfg) (force : Bool) : GenOut :=
  let proj_name := env.get_project_name_from_dir proj_dir
  match pyGet cfg "name" with
  | .error h => ⟨fs, [], false, false, false, .error h⟩
  | .ok namev =>
    let build_dir := env.get_build_dir fips_dir proj_name namev.pyStr
    match pyGet cfg "generator" with
    | .error h => ⟨fs, [], false, false, false, .error h⟩
    | .ok generator =>
      match pyGet cfg "platform" with
      | .error h => ⟨fs, [], false, false, false, .error h⟩
      | .ok plat =>
        let defines := gen_defines env generator plat
        let do_it := force
        let fs := if !fs.isdir build_dir then fs.makedirs build_dir else fs
        let do_it := if !fs.isfile (build_dir ++ "/CMakeCache.txt") then true else do_it
        if !do_it then ⟨fs, [], false, false, false, .ok true⟩
        else gen_project_generate env fs fips_dir proj_dir cfg namev build_dir defines

/-- Result of `project.build`: the file system, the console output, one
`(config_valid, build_succeeded)` pair per config the loop reached a
definite outcome for, whether the `num_valid_configs != len(configs)`
aggregate branch executed, and the returned value (or a halt). -/
structure BuildOut where
  fs : FS
  msgs : List LogMsg
  trace : List (Bool × Bool)
  aggregate_failed : Bool
  res : Except Halt Bool
  deriving DecidableEq, Repr

/-- Build-tool dispatch in the loop of `project.build` (the `xcodebuild`
and `cmake` branches subscript `cfg['build_type']`). -/
def build_dispatch (env : Env) (cfg : RawCfg) (target : Option String)
    (build_dir : String) (num_jobs : Nat) : Except Halt Bool :=
  match pyGet cfg "build_tool" with
  | .error h => .error h
  | .ok bt =>
    if bt = .str "make" then .ok (env.make_run_build target build_dir num_jobs)
    else if bt = .str "ninja" then .ok (env.ninja_run_build target build_dir num_jobs)
    else if bt = .str "xcodebuild" then
      match pyGet cfg "build_type" with
      | .error h => .error h
      | .ok bty => .ok (env.xcodebuild_run_build target bty build_dir num_jobs)
    else
      match pyGet cfg "build_type" with
      | .error h => .error h
      | .ok bty => .ok (env.cmake_run_build target bty build_dir num_jobs)

/-- One iteration of the config loop of `project.build`
(`project.py:244-271`): validate, re-generate with `force=False`,
dispatch the build tool.  The three per-config `log.error` calls at
`project.py:251`, `269` and `271` omit the `fatal=False` argument, so
`mod/log.py` exits the process with code 10 after printing them: an
invalid config, a failed generate, or a failed build each terminate the
whole verb, and only a fully successful iteration returns to the loop.
The `(config_valid, build_succeeded)` outcome the iteration reached is
reported alongside (`none` when it halted on an exception before
reaching one): a failed generate exits before the build tool runs, so
its outcome is `(true, false)`. -/
def build_step (env : Env) (fs : FS) (fips_dir proj_dir proj_name : String)
    (target : Option String) (cfg : RawCfg) :
    FS × List LogMsg × Option (Bool × Bool) × Except Halt Unit :=
  match check_config_valid env fs fips_dir proj_dir cfg true with
  | (vmsgs, .error h) => (fs, vmsgs, none, .error h)
  | (vmsgs, .ok (config_valid, _)) =>
    if config_valid then
      match pyGet cfg "name" with
      | .error h => (fs, vmsgs, none, .error h)
      | .ok namev =>
        let msgs := vmsgs ++ [LogMsg.colored YELLOW ("=== building: " ++ namev.pyStr)]
        let g := gen_project env fs fips_dir proj_dir cfg false
        match g.res with
        | .error h => (g.fs, msgs ++ g.msgs, none, .error h)
        | .ok gen_ok =>
          if !gen_ok then
            (g.fs, msgs ++ g.msgs ++
              [LogMsg.error ("Failed to generate \x27" ++ namev.pyStr ++
                "\x27 of project \x27" ++ proj_name ++ "\x27")],
              some (true, false), .error (.exit 10))
          else
            let msgs := msgs ++ g.msgs
            let build_dir := env.get_build_dir fips_dir proj_name namev.pyStr
            match build_dispatch env cfg target build_dir env.jobs with
            | .error h => (g.fs, msgs, none, .error h)
            | .ok result =>
              if result then (g.fs, msgs, some (true, true), .ok ())
              else
                (g.fs, msgs ++
                  [LogMsg.error ("Failed to build config \x27" ++ namev.pyStr ++
                    "\x27 of project \x27" ++ proj_name ++ "\x27")],
                  some (true, false), .error (.exit 10))
    else
      match pyGet cfg "name" with
      | .error h => (fs, vmsgs, none, .error h)
      | .ok namev =>
        (fs, vmsgs ++ [LogMsg.error ("Config \x27" ++ namev.pyStr ++
          "\x27 not valid in this environment")],
          some (false, false), .error (.exit 10))

/-- The config loop of `project.build`: thread the file system,
increment `num_valid_configs` for each completed (fully successful)
iteration, and stop at the first iteration that halts the process. -/
def build_loop (env : Env) (fips_dir proj_dir proj_name : String)
    (target : Option String) (fs : FS) (cfgs : List RawCfg) (num : Nat)
    (msgs : List LogMsg) (trace : List (Bool × Bool)) :
    FS × List LogMsg × List (Bool × Bool) × Except Halt Nat :=
  match cfgs with
  | [] => (fs, msgs, trace, .ok num)
  | cfg :: rest =>
    match build_step env fs fips_dir proj_dir proj_name target cfg with
    | (fs2, smsgs, oc, .error h) => (fs2, msgs ++ smsgs, trace ++ oc.toList, .error h)
    | (fs2, smsgs, oc, .ok _) =>
      build_loop env fips_dir proj_dir proj_name target fs2 rest (num + 1)
        (msgs ++ smsgs) (trace ++ oc.toList)

/-- `project.build`: load matching configs and process them in order.
Because the per-config failure errors are fatal (see `build_step`), the
loop completes only when every config validated and built, so the
aggregate always sees `num_valid_configs = len(configs)`: the
"`<failed>` out of `<total>` configs failed!" branch at `project.py:276`
is dead code, recorded by the `aggregate_failed` flag.
(`dep.fetch_imports`, `util.ensure_valid_project_dir` and
`dep.gather_and_write_imports` are external preparation steps outside the
model.) -/
def build (env : Env) (fs : FS) (fips_dir proj_dir cfg_name : String)
    (target : Option String) : BuildOut :=
  let proj_name := env.get_project_name_from_dir proj_dir
  let (lmsgs, lres) := load env fips_dir proj_dir cfg_name
  match lres with
  | .error h => ⟨fs, lmsgs, [], false, .error h⟩
  | .ok configs =>
    if configs.isEmpty then
      ⟨fs, lmsgs ++ [.error ("No valid configs found for \x27" ++ cfg_name ++ "\x27")],
        [], false, .error (.exit 10)⟩
    else
      match build_loop env fips_dir proj_dir proj_name target fs configs 0 lmsgs [] with
      | (fs2, msgs2, trace, .error h) => ⟨fs2, msgs2, trace, false, .error h⟩
      | (fs2, msgs2, trace, .ok num) =>
        if num ≠ configs.length then
          ⟨fs2, msgs2 ++ [.error (toString (configs.length - num) ++ " out of " ++
            toString configs.length ++ " configs failed!")], trace, true, .error (.exit 10)⟩
        else
          ⟨fs2, msgs2 ++ [.colored GREEN (toString num ++ " configs built")], trace,
            false, .ok true⟩

/-- The config loop of `project.clean`: delete existing build and deploy
directories, counting configs that had either. -/
def clean_loop (env : Env) (fips_dir proj_name : String) (fs : FS)
    (cfgs : List RawCfg) (num : Nat) (msgs : List LogMsg) :
    FS × List LogMsg × Except Halt Nat :=
  match cfgs with
  | [] => (fs, msgs, .ok num)
  | cfg :: rest =>
    match pyGet cfg "name" with
    | .error h => (fs, msgs, .error h)
    | .ok namev =>
      let build_dir := env.get_build_dir fips_dir proj_name namev.pyStr
      let build_dir_exists := fs.isdir build_dir
      let deploy_dir := env.get_deploy_dir fips_dir proj_name namev.pyStr
      let deploy_dir_exists := fs.isdir deploy_dir
      let (num, msgs) :=
        if build_dir_exists || deploy_dir_exists then
          (num + 1, msgs ++ [LogMsg.colored YELLOW ("=== clean: " ++ namev.pyStr)])
        else (num, msgs)
      let (fs, msgs) :=
        if build_dir_exists then
          (fs.rmtree build_dir, msgs ++ [LogMsg.info ("  deleted \x27" ++ build_dir ++ "\x27")])
        else (fs, msgs)
      let (fs, msgs) :=
        if deploy_dir_exists then
          (fs.rmtree deploy_dir, msgs ++ [LogMsg.info ("  deleted \x27" ++ deploy_dir ++ "\x27")])
        else (fs, msgs)
      clean_loop env fips_dir proj_name fs rest num msgs

/-- `project.clean`: delete the build/deploy directories of every matched
config; when none of them existed, report "nothing to clean" as a plain
(non-error) message; no matching configs is a fatal error. -/
def clean (env : Env) (fs : FS) (fips_dir proj_dir cfg_name : String) :
    FS × List LogMsg × Except Halt Unit :=
  let proj_name := env.get_project_name_from_dir proj_dir
  let (lmsgs, lres) := load env fips_dir proj_dir cfg_name
  match lres with
  | .error h => (fs, lmsgs, .error h)
  | .ok configs =>
    if configs.isEmpty then
      (fs, lmsgs ++ [.error ("No valid configs found for \x27" ++ cfg_name ++ "\x27")],
        .error (.exit 10))
    else
      match clean_loop env fips_dir proj_name fs configs 0 lmsgs with
      | (fs2, msgs2, .error h) => (fs2, msgs2, .error h)
      | (fs2, msgs2, .ok num) =>
        if num = 0 then
          (fs2, msgs2 ++ [.colored YELLOW ("=== clean: nothing to clean for " ++ cfg_name)],
            .ok ())
        else (fs2, msgs2, .ok ())

/-! ## Derived / spec-side definitions used by the theorems -/

/-- The candidate toolchain paths in layer-priority order: the current
project's toolchain directory, each imported project's toolchain
directory in import order, then the base installation's
`cmake-toolchains` directory. -/
def toolchain_candidates (env : Env) (fips_dir proj_dir : String)
    (toolchain : String) : List String :=
  (toolchain_path_in env proj_dir toolchain).toList ++
  env.imports.filterMap (fun pr => toolchain_path_in env pr.2 toolchain) ++
  [fips_dir ++ "/cmake-toolchains/" ++ toolchain]

/-- Spec-side first-occurrence deduplication on the derived `name`: keep
the first config with each `name`, drop every later duplicate. -/
def dedup_first_by_name : List RawCfg → List RawCfg
  | [] => []
  | c :: rest =>
      c :: dedup_first_by_name
        (rest.filter (fun c2 => !(c2.get "name" = c.get "name" : Bool)))
termination_by l => l.length
decreasing_by
  simp only [List.length_cons]
  exact Nat.lt_succ_of_le (List.length_filter_le _ _)

/-- The matched config-file paths `config.load` visits, in layer order. -/
def load_glob_paths (env : Env) (fips_dir proj_dir pattern : String) :
    List String :=
  (get_config_dirs env fips_dir proj_dir).2.flatMap
    (fun curDir => env.glob (curDir ++ "/" ++ pattern ++ ".yml"))

/-- The patched configs of the successfully parsed files, in file order. -/
def parsed_cfgs (env : Env) (paths : List String) : List RawCfg :=
  paths.filterMap (fun p => (env.parse p).toOption.map (load_patch p))

/-- Keys whose presence keeps the `project.build` loop free of
`KeyError`s (the loader injects `name`/`path`/`generator`; `platform`,
`build_tool`, `build_type` are the required fields the loop
subscripts). -/
def build_safe (cfg : RawCfg) : Bool :=
  cfg.hasKey "name" && cfg.hasKey "path" && cfg.hasKey "platform" &&
    cfg.hasKey "generator" && cfg.hasKey "build_tool" && cfg.hasKey "build_type"

/-! ## Concrete fixtures for witnesses and counterexamples -/

/-- A baseline environment for concrete evaluations. -/
def envT : Env where
  get_project_name_from_dir := fun _ => "proj"
  get_toolchains_dir := fun _ => none
  get_configs_dir := fun _ => none
  imports_ok := true
  imports := []
  glob := fun _ => []
  parse := fun _ => .error "empty"
  emscripten_exists := false
  android_exists := false
  cmake_exists := true
  make_exists := true
  ninja_exists := true
  xcodebuild_exists := false
  vscode_exists := true
  clion_exists := true
  get_build_dir := fun f pn cn => f ++ "/fips-build/" ++ pn ++ "/" ++ cn
  get_deploy_dir := fun f pn cn => f ++ "/fips-deploy/" ++ pn ++ "/" ++ cn
  ccache := false
  no_auto_import := false
  ios_sysroot := ""
  macos_sysroot := ""
  iosteam := none
  jobs := 3
  host_windows := false
  ninja_exe_content := "ninja-exe"
  cmake_run_gen := fun _ _ _ _ => true
  vscode_files := []
  make_run_build := fun _ _ _ => true
  ninja_run_build := fun _ _ _ => true
  xcodebuild_run_build := fun _ _ _ _ => true
  cmake_run_build := fun _ _ _ _ => true

/-- An empty file system. -/
def fs0 : FS := ⟨[], []⟩

/-- Environment with toolchain directories everywhere (for C7). -/
def env7 : Env := { envT with get_toolchains_dir := fun _ => some "T" }

/-- A native-platform config carrying an explicit `cmake-toolchain`
override (for C7). -/
def cfg7 : RawCfg := [("platform", .str "osx"), ("cmake-toolchain", .str "custom.cmake")]

/-- File system where every toolchain candidate exists (for C7). -/
def fs7 : FS :=
  ⟨[], [("T/custom.cmake", "x"), ("T/osx.toolchain.cmake", "y"),
        ("F/cmake-toolchains/custom.cmake", "z")]⟩

/-- Environment with a project toolchain directory and one import
(for C6: three layers). -/
def env6 : Env :=
  { envT with
      get_toolchains_dir := fun d => some (d ++ "/fips-files/toolchains")
      imports := [("imp1", "I1")] }

/-- A cross-compiling config with no override (for C6). -/
def cfg6 : RawCfg := [("platform", .str "emscripten")]

/-- File system where the toolchain file exists only in the third (base
installation) layer (for C6). -/
def fs6 : FS := ⟨[], [("F/cmake-toolchains/emscripten.toolchain.cmake", "t")]⟩

/-- The canonical build directory of a config with `name` value `nv`, as
computed inside `project.gen_project`. -/
def cfg_build_dir (env : Env) (fips_dir proj_dir : String) (nv : YVal) : String :=
  env.get_build_dir fips_dir (env.get_project_name_from_dir proj_dir) nv.pyStr

/-- A complete, valid native config (for C3's witness). -/
def cfg3 : RawCfg :=
  [("platform", .str "linux"), ("build_tool", .str "make"),
   ("build_type", .str "Debug"), ("path", .str "F/configs/linux-make-debug.yml"),
   ("folder", .str "F/configs"), ("name", .str "linux-make-debug"),
   ("generator", .str "Default"), ("generator-platform", .vnone),
   ("generator-toolset", .vnone), ("defines", .vnone)]

/-- File system where `cfg3`'s build directory exists and already holds
`CMakeCache.txt` (for C3's witness). -/
def fs3 : FS :=
  ⟨["F/fips-build/proj/linux-make-debug"],
   [("F/fips-build/proj/linux-make-debug/CMakeCache.txt", "cache")]⟩

/-- A config carrying every loader-injected field except `platform`
(for C5). -/
def cfg5 : RawCfg :=
  [("path", .str "/ws/proj/fips-files/configs/broken.yml"),
   ("folder", .str "/ws/proj/fips-files/configs"),
   ("name", .str "broken"),
   ("generator", .str "Default"),
   ("build_tool", .str "cmake"),
   ("build_type", .str "Debug")]

/-- Environment whose single config directory matches one malformed and
one well-formed file (for C4). -/
def env4 : Env :=
  { envT with
      glob := fun pat =>
        if pat = "F/configs/*.yml" then ["F/configs/bad.yml", "F/configs/good.yml"]
        else []
      parse := fun p =>
        if p = "F/configs/good.yml" then
          .ok [("platform", .str "linux"), ("build_tool", .str "cmake"),
               ("build_type", .str "Debug")]
        else .error "mapping values are not allowed here" }

/-- Environment whose single config directory matches one well-formed
file (for C9). -/
def envC9 : Env :=
  { envT with
      glob := fun pat =>
        if pat = "F/configs/foo.yml" then ["F/configs/foo.yml"] else []
      parse := fun _ => .ok [("platform", .str "linux")] }

/-- Environment with an import layer and a base layer both holding a
config file deriving the same name `shared` (for C2). -/
def env2 : Env :=
  { envT with
      imports := [("dep", "D")]
      get_configs_dir := fun d => some (d ++ "/fips-files/configs")
      glob := fun pat =>
        if pat = "D/fips-files/configs/shared.yml" then ["D/fips-files/configs/shared.yml"]
        else if pat = "F/configs/shared.yml" then ["F/configs/shared.yml"]
        else []
      parse := fun p =>
        if p = "D/fips-files/configs/shared.yml" then .ok [("platform", .str "linux")]
        else .ok [("platform", .str "osx")] }

/-- The patched config expected from the import layer of `env2`. -/
def cfg2A : RawCfg :=
  [("platform", .str "linux"),
   ("path", .str "D/fips-files/configs/shared.yml"),
   ("folder", .str "D/fips-files/configs"),
   ("name", .str "shared"),
   ("generator", .str "Default"),
   ("generator-platform", .vnone),
   ("generator-toolset", .vnone),
   ("defines", .vnone)]

/-- The patched config of the shadowed base-layer file of `env2`. -/
def cfg2B : RawCfg :=
  [("platform", .str "osx"),
   ("path", .str "F/configs/shared.yml"),
   ("folder", .str "F/configs"),
   ("name", .str "shared"),
   ("generator", .str "Default"),
   ("generator-platform", .vnone),
   ("generator-toolset", .vnone),
   ("defines", .vnone)]

/-- Raw file contents for the C1 witness: one config with an unknown
build tool (fails validation), two valid `make` configs. -/
def raw1 : RawCfg :=
  [("platform", .str "linux"), ("build_tool", .str "foo"), ("build_type", .str "Debug")]

/-- Raw file contents for the C1 witness (valid, but its build fails). -/
def raw2 : RawCfg :=
  [("platform", .str "linux"), ("build_tool", .str "make"), ("build_type", .str "Debug")]

/-- Raw file contents for the C1 witness (valid, build succeeds). -/
def raw3 : RawCfg :=
  [("platform", .str "linux"), ("build_tool", .str "make"), ("build_type", .str "Debug")]

/-- Environment for the C1 witness: three matched configs, of which the
first fails validation and the second fails the adapter's build step
(`make` fails exactly in `c2`'s build directory). -/
def env1 : Env :=
  { envT with
      glob := fun pat =>
        if pat = "F/configs/*.yml" then
          ["F/configs/c1.yml", "F/configs/c2.yml", "F/configs/c3.yml"]
        else []
      parse := fun p =>
        if p = "F/configs/c1.yml" then .ok raw1
        else if p = "F/configs/c2.yml" then .ok raw2
        else .ok raw3
      make_run_build := fun _ bd _ => !(bd = "F/fips-build/proj/c2" : Bool) }

/-- The three configs `env1` loads. -/
def configs1 : List RawCfg :=
  [load_patch "F/configs/c1.yml" raw1, load_patch "F/configs/c2.yml" raw2,
   load_patch "F/configs/c3.yml" raw3]

/-- A complete clion-build-tool config (for C8). -/
def cfg8 : RawCfg :=
  [("platform", .str "linux"), ("build_tool", .str "clion"),
   ("build_type", .str "Debug"), ("path", .str "P/configs/linux-clion-debug.yml"),
   ("folder", .str "P/configs"), ("name", .str "linux-clion-debug"),
   ("generator", .str "Default"), ("generator-platform", .vnone),
   ("generator-toolset", .vnone), ("defines", .vnone)]

/-- Environment whose external cmake generate step always fails
(for C8). -/
def env8 : Env := { envT with cmake_run_gen := fun _ _ _ _ => false }

/-- File system with a pre-existing `.idea/misc.xml` but no `.iml`
(for C8). -/
def fs8b : FS := ⟨["P/.idea"], [("P/.idea/misc.xml", "pre-existing")]⟩

/-- File system with a pre-existing `.idea/workspace.xml` (for C8's
witness). -/
def fs8w : FS := ⟨[], [("P/.idea/workspace.xml", "keep")]⟩

/-! ## Theorems -/

/-- `os.makedirs` never changes regular files. -/
theorem FS.isfile_makedirs (fs : FS) (p q : String) :
    (fs.makedirs p).isfile q = fs.isfile q := rfl

/-- When the config has a `platform` attribute, `config.get_toolchain`
prints nothing and never halts. -/
theorem get_toolchain_ok (env : Env) (fs : FS) (fips_dir proj_dir : String)
    (cfg : RawCfg) (pv : YVal) (hplat : cfg.get "platform" = some pv) :
    ∃ res, get_toolchain env fs fips_dir proj_dir cfg = ([], .ok res) := by
  simp only [get_toolchain, hplat]
  split
  · exact ⟨none, rfl⟩
  · split
    · split
      · exact ⟨_, rfl⟩
      · exact ⟨_, rfl⟩
    · exact ⟨_, rfl⟩

/-- Once the staleness guard decides to generate, the adapter's generate
step is invoked, provided the config has the keys the path to the
invocation subscripts (`path`, `platform`, `build_tool`). -/
theorem gen_project_generate_invoked (env : Env) (fs : FS)
    (fips_dir proj_dir : String) (cfg : RawCfg) (nv : YVal)
    (build_dir : String) (defines : List (String × String))
    (pathv pv btv : YVal)
    (hpath : cfg.get "path" = some pathv)
    (hplat : cfg.get "platform" = some pv)
    (hbt : cfg.get "build_tool" = some btv) :
    (gen_project_generate env fs fips_dir proj_dir cfg nv build_dir defines).gen_invoked
      = true := by
  obtain ⟨res, htc⟩ := get_toolchain_ok env fs fips_dir proj_dir cfg pv hplat
  simp only [gen_project_generate, pyGet, hpath, htc, hbt]
  split <;> (try split) <;> rfl

/-- C10: for every environment and every pair of patterns, the result of
`config.list` is identical — the `pattern` parameter never filters the
result (the body globs `*.yml`, not the pattern). -/
theorem C10_list_ignores_pattern (env : Env) (fips_dir proj_dir p q : String) :
    list env fips_dir proj_dir p = list env fips_dir proj_dir q := rfl

/-- C7: for a config whose `platform` is in the fixed native-platform
set, `config.get_toolchain` returns `None` (no toolchain required, no
error, no output) regardless of file-system contents, overrides, or
layers. -/
theorem C7_native_platform_no_toolchain (env : Env) (fs : FS)
    (fips_dir proj_dir : String) (cfg : RawCfg) (p : String)
    (hplat : cfg.get "platform" = some (.str p))
    (hnative : p ∈ native_platforms) :
    get_toolchain env fs fips_dir proj_dir cfg = ([], .ok none) := by
  have h : (YVal.str p).inStrList native_platforms = true := by
    simp only [YVal.inStrList, List.any_eq_true, decide_eq_true_eq]
    exact ⟨p, hnative, rfl⟩
  simp [get_toolchain, hplat, h]

/-- C7 witness: `osx` with a matching override file present in every
layer still resolves to "no toolchain required". -/
theorem C7_witness :
    get_toolchain env7 fs7 "F" "P" cfg7 = ([], .ok none) :=
  C7_native_platform_no_toolchain env7 fs7 "F" "P" cfg7 "osx" rfl (by decide)

/-- The imported-projects loop of `get_toolchain` followed by the
`for`/`else` fallback is exactly a first-match search over the import
layers' candidate paths and then the base installation's path. -/
theorem get_toolchain_imports_find (env : Env) (fs : FS) (fips_dir tc : String)
    (l : List (String × String)) :
    get_toolchain_imports env fs fips_dir tc l =
      (l.filterMap (fun pr => toolchain_path_in env pr.2 tc) ++
        [fips_dir ++ "/cmake-toolchains/" ++ tc]).find? fs.isfile := by
  induction l with
  | nil =>
      simp only [get_toolchain_imports, List.filterMap_nil, List.nil_append, List.find?]
      cases hf : fs.isfile (fips_dir ++ "/cmake-toolchains/" ++ tc) <;> simp [hf]
  | cons hd tl ih =>
      simp only [get_toolchain_imports, List.filterMap_cons]
      cases htp : toolchain_path_in env hd.2 tc with
      | none => simpa using ih
      | some path =>
          simp only [List.cons_append, List.find?]
          cases hf : fs.isfile path <;> simp [hf, ih]

/-- C6: for a non-native platform, `config.get_toolchain` returns the
first existing file among the candidate paths taken in layer-priority
order (current project, imports in order, base installation) — `none`
when no layer has the file. -/
theorem C6_toolchain_layer_order (env : Env) (fs : FS)
    (fips_dir proj_dir : String) (cfg : RawCfg) (p : String)
    (hplat : cfg.get "platform" = some (.str p))
    (hnn : p ∉ native_platforms) :
    get_toolchain env fs fips_dir proj_dir cfg =
      ([], .ok ((toolchain_candidates env fips_dir proj_dir
          (toolchain_filename cfg (.str p))).find? fs.isfile)) := by
  have h : (YVal.str p).inStrList native_platforms = false := by
    simp only [YVal.inStrList, List.any_eq_false, decide_eq_true_eq]
    intro s hs heq
    exact hnn (by rw [(YVal.str.injEq p s).mp heq]; exact hs)
  simp only [get_toolchain, hplat, h, Bool.false_eq_true, if_false]
  cases htp : toolchain_path_in env proj_dir (toolchain_filename cfg (.str p)) with
  | none =>
      simp only [toolchain_candidates, htp, Option.toList_none, List.nil_append]
      rw [← get_toolchain_imports_find]
  | some path =>
      simp only [toolchain_candidates, htp, Option.toList_some, List.cons_append,
        List.nil_append]
      cases hf : fs.isfile path with
      | true =>
          rw [List.find?_cons_of_pos _ hf]
          simp [hf]
      | false =>
          rw [List.find?_cons_of_neg _ (by simp [hf]), ← get_toolchain_imports_find]
          simp [hf]

/-- C6 witness: three layers, the file exists only in the third (the
base installation's `cmake-toolchains`) — that path is returned. -/
theorem C6_witness :
    get_toolchain env6 fs6 "F" "P" cfg6 =
      ([], .ok (some "F/cmake-toolchains/emscripten.toolchain.cmake")) := by
  rw [C6_toolchain_layer_order env6 fs6 "F" "P" cfg6 "emscripten" rfl (by decide)]
  rfl

/-- C3: `project.gen_project` invokes the adapter's generate exactly when
`force` is set, or the build directory does not exist, or it exists but
lacks the `CMakeCache.txt` marker; when none of these hold it performs no
adapter invocation, writes nothing, prints nothing, and returns success.
(The hypotheses supply the keys the function subscripts and the
file-system consistency fact that a file cannot live inside a
non-existent directory.) -/
theorem C3_generate_staleness_guard (env : Env) (fs : FS)
    (fips_dir proj_dir : String) (cfg : RawCfg) (force : Bool)
    (nv gv pv pathv btv : YVal)
    (hname : cfg.get "name" = some nv)
    (hgen : cfg.get "generator" = some gv)
    (hplat : cfg.get "platform" = some pv)
    (hpath : cfg.get "path" = some pathv)
    (hbt : cfg.get "build_tool" = some btv)
    (hcons : fs.isdir (cfg_build_dir env fips_dir proj_dir nv) = false →
        fs.isfile (cfg_build_dir env fips_dir proj_dir nv ++ "/CMakeCache.txt") = false) :
    ((gen_project env fs fips_dir proj_dir cfg force).gen_invoked
      = (force || !fs.isdir (cfg_build_dir env fips_dir proj_dir nv) ||
          (fs.isdir (cfg_build_dir env fips_dir proj_dir nv) &&
            !fs.isfile (cfg_build_dir env fips_dir proj_dir nv ++ "/CMakeCache.txt"))))
    ∧ (force = false →
        fs.isdir (cfg_build_dir env fips_dir proj_dir nv) = true →
        fs.isfile (cfg_build_dir env fips_dir proj_dir nv ++ "/CMakeCache.txt") = true →
        gen_project env fs fips_dir proj_dir cfg force
          = ⟨fs, [], false, false, false, .ok true⟩) := by
  simp only [cfg_build_dir] at hcons ⊢
  simp only [gen_project, pyGet, hname, hgen, hplat]
  cases hdir : fs.isdir (env.get_build_dir fips_dir (env.get_project_name_from_dir proj_dir) nv.pyStr) with
  | false =>
      have hfile := hcons hdir
      have hinv := gen_project_generate_invoked env
        (fs.makedirs (env.get_build_dir fips_dir (env.get_project_name_from_dir proj_dir) nv.pyStr))
        fips_dir proj_dir cfg nv
        (env.get_build_dir fips_dir (env.get_project_name_from_dir proj_dir) nv.pyStr)
        (gen_defines env gv pv) pathv pv btv hpath hplat hbt
      constructor
      · simp [hdir, hfile, FS.isfile_makedirs, hinv]
      · intro _ hdir2
        exact absurd hdir2 (by simp [hdir])
  | true =>
      cases hfile : fs.isfile (env.get_build_dir fips_dir (env.get_project_name_from_dir proj_dir) nv.pyStr ++ "/CMakeCache.txt") with
      | false =>
          have hinv := gen_project_generate_invoked env fs fips_dir proj_dir cfg nv
            (env.get_build_dir fips_dir (env.get_project_name_from_dir proj_dir) nv.pyStr)
            (gen_defines env gv pv) pathv pv btv hpath hplat hbt
          constructor
          · simp [hdir, hfile, hinv]
          · intro _ _ hfile2
            exact absurd hfile2 (by simp [hfile])
      | true =>
          cases force with
          | true =>
              have hinv := gen_project_generate_invoked env fs fips_dir proj_dir cfg nv
                (env.get_build_dir fips_dir (env.get_project_name_from_dir proj_dir) nv.pyStr)
                (gen_defines env gv pv) pathv pv btv hpath hplat hbt
              refine ⟨by simp [hdir, hfile, hinv], ?_⟩
              intro h
              exact absurd h (by decide)
          | false =>
              refine ⟨by simp [hdir, hfile], ?_⟩
              intro _ _ _
              simp [hdir, hfile]

/-- C3 witness: `force = false` with the build directory and cache marker
both present — no adapter invocation, success. -/
theorem C3_witness :
    gen_project envT fs3 "F" "P" cfg3 false = ⟨fs3, [], false, false, false, .ok true⟩ :=
  (C3_generate_staleness_guard envT fs3 "F" "P" cfg3 false
      (.str "linux-make-debug") (.str "Default") (.str "linux")
      (.str "F/configs/linux-make-debug.yml") (.str "make")
      rfl rfl rfl rfl rfl (by decide)).2 rfl (by decide) (by decide)

/-- C5: the validation routine `config.check_config_valid` does not in
fact survey all problems in one pass — on a config whose only defect is a
missing `platform` field it raises `KeyError` at the SDK check (after
having recorded the "missing field" message) instead of returning
`(False, messages)`. -/
theorem C5_validation_keyerror_on_missing_platform :
    check_config_valid envT fs0 "F" "P" cfg5 true
      = ([], .error (.exn "KeyError: platform")) := by rfl

/-- When no config has an existing build or deploy directory, the clean
loop deletes nothing, prints nothing, and counts nothing. -/
theorem clean_loop_nothing (env : Env) (fips_dir proj_name : String) (fs : FS)
    (cfgs : List RawCfg) (num : Nat) (msgs : List LogMsg)
    (hno : ∀ cfg ∈ cfgs, ∃ nv, cfg.get "name" = some nv ∧
        fs.isdir (env.get_build_dir fips_dir proj_name nv.pyStr) = false ∧
        fs.isdir (env.get_deploy_dir fips_dir proj_name nv.pyStr) = false) :
    clean_loop env fips_dir proj_name fs cfgs num msgs = (fs, msgs, .ok num) := by
  induction cfgs with
  | nil => rfl
  | cons cfg rest ih =>
      obtain ⟨nv, hname, hbd, hdd⟩ := hno cfg (List.mem_cons_self _ _)
      simp only [clean_loop, pyGet, hname, hbd, hdd, Bool.or_self, if_false,
        Bool.false_eq_true]
      exact ih (fun c hc => hno c (List.mem_cons_of_mem _ hc))

/-- C9: when the matched configs have neither an existing build directory
nor an existing deployment directory, `project.clean` leaves the file
system untouched, reports `=== clean: nothing to clean for <pattern>` as
a plain colored message (not an error), and completes successfully (no
fatal exit). -/
theorem C9_clean_nothing_to_clean (env : Env) (fs : FS)
    (fips_dir proj_dir cfg_name : String) (configs : List RawCfg)
    (hload : (load env fips_dir proj_dir cfg_name).2 = .ok configs)
    (hne : configs ≠ [])
    (hno : ∀ cfg ∈ configs, ∃ nv, cfg.get "name" = some nv ∧
        fs.isdir (env.get_build_dir fips_dir (env.get_project_name_from_dir proj_dir) nv.pyStr) = false ∧
        fs.isdir (env.get_deploy_dir fips_dir (env.get_project_name_from_dir proj_dir) nv.pyStr) = false) :
    clean env fs fips_dir proj_dir cfg_name
      = (fs, (load env fips_dir proj_dir cfg_name).1 ++
          [.colored YELLOW ("=== clean: nothing to clean for " ++ cfg_name)], .ok ()) := by
  have hsplit : load env fips_dir proj_dir cfg_name
      = ((load env fips_dir proj_dir cfg_name).1, Except.ok configs) := by
    rw [← hload]
  cases configs with
  | nil => exact absurd rfl hne
  | cons c cs =>
      unfold clean
      rw [hsplit]
      simp only [List.isEmpty_cons, Bool.false_eq_true, if_false]
      rw [clean_loop_nothing env fips_dir (env.get_project_name_from_dir proj_dir) fs
        (c :: cs) 0 (load env fips_dir proj_dir cfg_name).1 hno]
      rfl

/-- C9 witness: one matched config, empty file system — "nothing to
clean" and a successful result. -/
theorem C9_witness :
    clean envC9 fs0 "F" "F" "foo"
      = (fs0, [.colored YELLOW "=== clean: nothing to clean for foo"], .ok ()) := by
  have h := C9_clean_nothing_to_clean envC9 fs0 "F" "F" "foo"
    [load_patch "F/configs/foo.yml" [("platform", .str "linux")]]
    rfl (by decide)
    (by
      intro cfg hc
      rw [List.mem_singleton] at hc
      subst hc
      exact ⟨.str "foo", by decide, rfl, rfl⟩)
  simpa using h

/-- `parsed_cfgs` unfolds over a successfully parsed head path. -/
theorem parsed_cfgs_cons_ok (env : Env) (p : String) (rest : List String)
    (c : RawCfg) (hc : env.parse p = .ok c) :
    parsed_cfgs env (p :: rest) = load_patch p c :: parsed_cfgs env rest := by
  simp [parsed_cfgs, hc, Except.toOption]

/-- Unfolding equation of `dedup_first_by_name` on a nonempty list. -/
theorem dedup_first_by_name_cons (c : RawCfg) (l : List RawCfg) :
    dedup_first_by_name (c :: l)
      = c :: dedup_first_by_name
          (l.filter (fun c2 => !(c2.get "name" = c.get "name" : Bool))) := by
  rw [dedup_first_by_name]

/-- Every config kept by the deduplication came from the input list. -/
theorem mem_dedup_first_by_name : ∀ (l : List RawCfg) (x : RawCfg),
    x ∈ dedup_first_by_name l → x ∈ l := by
  intro l
  induction l using dedup_first_by_name.induct with
  | case1 =>
      intro x hx
      simp [dedup_first_by_name] at hx
  | case2 c rest ih =>
      intro x hx
      rw [dedup_first_by_name_cons] at hx
      rcases List.mem_cons.mp hx with rfl | hx2
      · exact List.mem_cons_self _ _
      · exact List.mem_cons_of_mem _ (List.mem_of_mem_filter (ih _ hx2))

/-- After deduplication the derived `name`s are pairwise distinct: the
result holds exactly one config per name. -/
theorem dedup_first_by_name_pairwise : ∀ l : List RawCfg,
    (dedup_first_by_name l).Pairwise (fun a b => a.get "name" ≠ b.get "name") := by
  intro l
  induction l using dedup_first_by_name.induct with
  | case1 => simp [dedup_first_by_name]
  | case2 c rest ih =>
      rw [dedup_first_by_name_cons]
      refine List.Pairwise.cons ?_ ih
      intro b hb
      have hbf := mem_dedup_first_by_name _ _ hb
      have hpred := List.of_mem_filter hbf
      simp only [Bool.not_eq_eq_eq_not, Bool.not_true, decide_eq_false_iff_not] at hpred
      exact fun heq => hpred (heq.symm)

/-- Accumulator characterization of the `config.load` path loop: when
every file parses, the loop extends the accumulator with the
first-occurrence deduplication of the (not-yet-shadowed) parsed
configs. -/
theorem load_paths_dedup (env : Env) (paths : List String) :
    ∀ acc : List RawCfg,
      (∀ p ∈ paths, ∃ c, env.parse p = .ok c) →
      load_paths env paths acc
        = .ok (acc ++ dedup_first_by_name
            ((parsed_cfgs env paths).filter
              (fun c => !acc.any (fun a => a.get "name" = c.get "name")))) := by
  induction paths with
  | nil =>
      intro acc _
      simp [load_paths, parsed_cfgs, dedup_first_by_name]
  | cons p rest ih =>
      intro acc hp
      obtain ⟨c, hc⟩ := hp p (List.mem_cons_self _ _)
      have hrest : ∀ q ∈ rest, ∃ d, env.parse q = .ok d :=
        fun q hq => hp q (List.mem_cons_of_mem _ hq)
      rw [parsed_cfgs_cons_ok env p rest c hc]
      simp only [load_paths, load_one, hc]
      cases hdup : acc.any (fun a => a.get "name" = (load_patch p c).get "name") with
      | true =>
          simp only [if_true]
          rw [ih acc hrest]
          congr 2
          rw [List.filter_cons]
          simp [hdup]
      | false =>
          simp only [Bool.false_eq_true, if_false]
          rw [ih (acc ++ [load_patch p c]) hrest]
          rw [List.filter_cons]
          simp only [hdup, Bool.not_false, if_true]
          have hfil : (parsed_cfgs env rest).filter
                (fun c2 => !(acc ++ [load_patch p c]).any (fun a => a.get "name" = c2.get "name"))
              = ((parsed_cfgs env rest).filter
                  (fun c2 => !acc.any (fun a => a.get "name" = c2.get "name"))).filter
                  (fun c2 => !(c2.get "name" = (load_patch p c).get "name" : Bool)) := by
            rw [List.filter_filter]
            apply List.filter_congr
            intro a _
            simp only [List.any_append, List.any_cons, List.any_nil, Bool.or_false,
              Bool.not_or]
            rw [Bool.and_comm,
              show (decide ((load_patch p c).get "name" = a.get "name") : Bool)
                  = decide (a.get "name" = (load_patch p c).get "name") from
                decide_eq_decide.mpr eq_comm]
          rw [hfil, dedup_first_by_name_cons, List.append_assoc, List.singleton_append]

/-- C2: when every matched file parses, `config.load` emits no extra
diagnostic beyond `get_config_dirs`, and returns exactly the
first-occurrence deduplication of the patched configs in layer-priority
order — for each derived `name` exactly one config, the one from the
earliest layer, every later duplicate silently dropped. -/
theorem C2_load_first_occurrence_wins (env : Env)
    (fips_dir proj_dir pattern : String)
    (hp : ∀ p ∈ load_glob_paths env fips_dir proj_dir pattern,
        ∃ c, env.parse p = .ok c) :
    (load env fips_dir proj_dir pattern).1 = (get_config_dirs env fips_dir proj_dir).1
    ∧ (load env fips_dir proj_dir pattern).2
        = .ok (dedup_first_by_name
            (parsed_cfgs env (load_glob_paths env fips_dir proj_dir pattern)))
    ∧ List.Pairwise (fun a b => a.get "name" ≠ b.get "name")
        (dedup_first_by_name
          (parsed_cfgs env (load_glob_paths env fips_dir proj_dir pattern))) := by
  refine ⟨rfl, ?_, dedup_first_by_name_pairwise _⟩
  show load_paths env (load_glob_paths env fips_dir proj_dir pattern) [] = _
  rw [load_paths_dedup env (load_glob_paths env fips_dir proj_dir pattern) [] hp]
  simp

/-- C2 witness: two layers each contributing a `shared.yml`; the result
is exactly one config named `shared`, patched from the earlier
(import-layer) file; the base-layer duplicate is dropped. -/
theorem C2_witness :
    (load env2 "F" "P" "shared").2 = .ok [cfg2A] := by
  have hp : ∀ p ∈ load_glob_paths env2 "F" "P" "shared",
      ∃ c, env2.parse p = .ok c := by
    intro p hmem
    rw [show load_glob_paths env2 "F" "P" "shared"
        = ["D/fips-files/configs/shared.yml", "F/configs/shared.yml"] from by decide] at hmem
    rcases List.mem_cons.mp hmem with rfl | hmem2
    · exact ⟨_, rfl⟩
    · rcases List.mem_singleton.mp hmem2 with rfl
      exact ⟨_, rfl⟩
  have h := C2_load_first_occurrence_wins env2 "F" "P" "shared" hp
  rw [h.2.1,
    show parsed_cfgs env2 (load_glob_paths env2 "F" "P" "shared") = [cfg2A, cfg2B] from
      by decide,
    dedup_first_by_name_cons,
    show [cfg2B].filter (fun c2 => !(c2.get "name" = cfg2A.get "name" : Bool))
        = ([] : List RawCfg) from by decide,
    show dedup_first_by_name [] = [] from by rw [dedup_first_by_name]]

/-- C4: `config.load` does not continue past a malformed file — the
`except` handler's `log.error('YML parse error: {}', e.message)` accesses
the nonexistent `message` attribute (and would pass it as the fatal
flag), halting the whole invocation; the well-formed file that follows is
never returned. -/
theorem C4_load_halts_on_malformed_file :
    load env4 "F" "F" "*"
      = ([], .error (.exn
          "AttributeError: \x27YAMLError\x27 object has no attribute \x27message\x27")) := by
  rfl

/-- A present key yields a value. -/
theorem RawCfg.get_of_hasKey (cfg : RawCfg) (k : String)
    (h : cfg.hasKey k = true) : ∃ v, cfg.get k = some v := by
  simp only [RawCfg.hasKey, List.any_eq_true, decide_eq_true_eq] at h
  obtain ⟨kv, hmem, hk⟩ := h
  have hsome : (cfg.find? (fun kv => kv.1 = k)).isSome := by
    rw [List.find?_isSome]
    exact ⟨kv, hmem, by simp [hk]⟩
  obtain ⟨kv2, hkv2⟩ := Option.isSome_iff_exists.mp hsome
  exact ⟨kv2.2, by simp [RawCfg.get, hkv2]⟩

/-- The required-fields loop never raises when `path` is present. -/
theorem req_field_check_ok (cfg : RawCfg) (pathv : YVal)
    (hpath : cfg.get "path" = some pathv) :
    ∀ (fields : List String) (messages : List String) (valid : Bool),
      ∃ out, req_field_check cfg fields messages valid = .ok out := by
  intro fields
  induction fields with
  | nil => intro m v; exact ⟨(m, v), rfl⟩
  | cons f rest ih =>
      intro m v
      cases hk : cfg.hasKey f with
      | true => simpa [req_field_check, hk] using ih m v
      | false =>
          simp only [req_field_check, hk, Bool.false_eq_true, if_false, pyGet, hpath]
          exact ih _ _

/-- `config.check_config_valid` never raises when the keys it subscripts
(`name`, `path`, `platform`, `build_tool`) are present. -/
theorem check_config_valid_ok (env : Env) (fs : FS) (fips_dir proj_dir : String)
    (cfg : RawCfg) (pe : Bool) (nv pathv pv btv : YVal)
    (hname : cfg.get "name" = some nv) (hpath : cfg.get "path" = some pathv)
    (hplat : cfg.get "platform" = some pv) (hbt : cfg.get "build_tool" = some btv) :
    ∃ msgs res, check_config_valid env fs fips_dir proj_dir cfg pe = (msgs, .ok res) := by
  obtain ⟨out, hout⟩ := req_field_check_ok cfg pathv hpath required_fields [] true
  obtain ⟨m0, v0⟩ := out
  obtain ⟨tres, htres⟩ := get_toolchain_ok env fs fips_dir proj_dir cfg pv hplat
  cases hsdk : check_sdk env pv <;>
  cases hvbt : valid_build_tool btv <;>
  cases hcbt : check_build_tool env btv <;>
  cases hnn : pv.inStrList native_platforms <;>
  cases tres <;>
  (simp [check_config_valid, hout, pyGet, hplat, hbt, hpath, hname, htres,
      hsdk, hvbt, hcbt, hnn]
   try exact ⟨_, _, rfl⟩)

/-- `clion.write_workspace_settings` succeeds when the config has a
`name`. -/
theorem clion_write_ok (env : Env) (fs : FS) (proj_dir : String)
    (cfg : RawCfg) (nv : YVal) (hname : cfg.get "name" = some nv) :
    ∃ fs2, clion_write_workspace_settings env fs proj_dir cfg
      = ([LogMsg.info "=== writing JetBrains CLion config files..."], .ok fs2) := by
  simp only [clion_write_workspace_settings, write_clion_workspace_file, pyGet, hname]
  split <;> split <;> exact ⟨_, rfl⟩

/-- The generate tail of `gen_project` never raises when the subscripted
keys are present. -/
theorem gen_project_generate_res_ok (env : Env) (fs : FS)
    (fips_dir proj_dir : String) (cfg : RawCfg) (nv : YVal)
    (build_dir : String) (defines : List (String × String))
    (pathv pv btv : YVal)
    (hname : cfg.get "name" = some nv)
    (hpath : cfg.get "path" = some pathv)
    (hplat : cfg.get "platform" = some pv)
    (hbt : cfg.get "build_tool" = some btv) :
    ∃ b, (gen_project_generate env fs fips_dir proj_dir cfg nv build_dir defines).res
      = .ok b := by
  obtain ⟨tres, htres⟩ := get_toolchain_ok env fs fips_dir proj_dir cfg pv hplat
  simp only [gen_project_generate, pyGet, hpath, htres, hbt]
  split
  · rename_i heq
    obtain ⟨fs2, h2⟩ := clion_write_ok env _ proj_dir cfg nv hname
    split
    · rename_i hcw
      rw [h2] at hcw
      simp at hcw
    · exact ⟨_, rfl⟩
  · exact ⟨_, rfl⟩

/-- `project.gen_project` never raises when the subscripted keys are
present. -/
theorem gen_project_res_ok (env : Env) (fs : FS) (fips_dir proj_dir : String)
    (cfg : RawCfg) (force : Bool) (nv gv pv pathv btv : YVal)
    (hname : cfg.get "name" = some nv) (hgen : cfg.get "generator" = some gv)
    (hplat : cfg.get "platform" = some pv) (hpath : cfg.get "path" = some pathv)
    (hbt : cfg.get "build_tool" = some btv) :
    ∃ b, (gen_project env fs fips_dir proj_dir cfg force).res = .ok b := by
  simp only [gen_project, pyGet, hname, hgen, hplat]
  repeat' split
  all_goals
    first
      | exact ⟨true, rfl⟩
      | exact gen_project_generate_res_ok env _ fips_dir proj_dir cfg nv _ _ pathv pv btv
          hname hpath hplat hbt

/-- The build-tool dispatch never raises when `build_tool` and
`build_type` are present. -/
theorem build_dispatch_ok (env : Env) (cfg : RawCfg) (target : Option String)
    (bd : String) (jobs : Nat) (btv btyv : YVal)
    (hbt : cfg.get "build_tool" = some btv)
    (hbty : cfg.get "build_type" = some btyv) :
    ∃ r, build_dispatch env cfg target bd jobs = .ok r := by
  simp only [build_dispatch, pyGet, hbt, hbty]
  repeat' split
  all_goals exact ⟨_, rfl⟩

/-- Unpack `build_safe` into the six key-presence facts. -/
theorem build_safe_keys (cfg : RawCfg) (h : build_safe cfg = true) :
    (∃ v, cfg.get "name" = some v) ∧ (∃ v, cfg.get "path" = some v)
    ∧ (∃ v, cfg.get "platform" = some v) ∧ (∃ v, cfg.get "generator" = some v)
    ∧ (∃ v, cfg.get "build_tool" = some v) ∧ (∃ v, cfg.get "build_type" = some v) := by
  simp only [build_safe, Bool.and_eq_true] at h
  exact ⟨RawCfg.get_of_hasKey _ _ h.1.1.1.1.1, RawCfg.get_of_hasKey _ _ h.1.1.1.1.2,
    RawCfg.get_of_hasKey _ _ h.1.1.1.2, RawCfg.get_of_hasKey _ _ h.1.1.2,
    RawCfg.get_of_hasKey _ _ h.1.2, RawCfg.get_of_hasKey _ _ h.2⟩

/-- One iteration of the build loop on a `build_safe` config either
completes fully successfully (outcome `(true, true)`), or prints its
per-config error and exits the process with code 10 carrying a failed
outcome — it never raises an exception. -/
theorem build_step_spec (env : Env) (fs : FS)
    (fips_dir proj_dir proj_name : String) (target : Option String)
    (cfg : RawCfg) (hsafe : build_safe cfg = true) :
    (∃ fs2 smsgs, build_step env fs fips_dir proj_dir proj_name target cfg
        = (fs2, smsgs, some (true, true), .ok ()))
    ∨ (∃ fs2 smsgs v, build_step env fs fips_dir proj_dir proj_name target cfg
        = (fs2, smsgs, some (v, false), .error (.exit 10))) := by
  obtain ⟨⟨nv, hname⟩, ⟨pathv, hpath⟩, ⟨pv, hplat⟩, ⟨gv, hgen⟩, ⟨btv, hbt⟩, ⟨btyv, hbty⟩⟩ :=
    build_safe_keys cfg hsafe
  obtain ⟨vmsgs, vres, hv⟩ := check_config_valid_ok env fs fips_dir proj_dir cfg true
    nv pathv pv btv hname hpath hplat hbt
  obtain ⟨b, hb⟩ := gen_project_res_ok env fs fips_dir proj_dir cfg false
    nv gv pv pathv btv hname hgen hplat hpath hbt
  obtain ⟨r, hr⟩ := build_dispatch_ok env cfg target
    (env.get_build_dir fips_dir proj_name nv.pyStr) env.jobs btv btyv hbt hbty
  simp only [build_step, hv, pyGet, hname, hb, hr]
  repeat' split
  all_goals
    first
      | exact Or.inl ⟨_, _, rfl⟩
      | exact Or.inr ⟨_, _, _, rfl⟩

/-- The build loop on `build_safe` configs either completes — once per
config it incremented `num_valid_configs`, every outcome fully
successful — or exits with code 10 at the first failing config, its
trace then a fully-successful prefix followed by the single failing
outcome. -/
theorem build_loop_spec (env : Env) (fips_dir proj_dir proj_name : String)
    (target : Option String) :
    ∀ (cfgs : List RawCfg), (∀ cfg ∈ cfgs, build_safe cfg = true) →
    ∀ (fs : FS) (num : Nat) (msgs : List LogMsg) (trace : List (Bool × Bool)),
      (∃ fs2 msgs2 trace2,
        build_loop env fips_dir proj_dir proj_name target fs cfgs num msgs trace
          = (fs2, msgs ++ msgs2, trace ++ trace2, .ok (num + cfgs.length))
        ∧ trace2.length = cfgs.length
        ∧ trace2.all (fun t => t.1 && t.2) = true)
      ∨ (∃ fs2 msgs2 pre t,
        build_loop env fips_dir proj_dir proj_name target fs cfgs num msgs trace
          = (fs2, msgs ++ msgs2, trace ++ (pre ++ [t]), .error (.exit 10))
        ∧ pre.all (fun t => t.1 && t.2) = true
        ∧ (t.1 && t.2) = false
        ∧ (pre ++ [t]).length ≤ cfgs.length) := by
  intro cfgs
  induction cfgs with
  | nil =>
      intro _ fs num msgs trace
      exact Or.inl ⟨fs, [], [], by simp [build_loop], rfl, rfl⟩
  | cons cfg rest ih =>
      intro hsafe fs num msgs trace
      rcases build_step_spec env fs fips_dir proj_dir proj_name target cfg
          (hsafe cfg (List.mem_cons_self _ _)) with
        ⟨fs2, smsgs, hstep⟩ | ⟨fs2, smsgs, v, hstep⟩
      · rcases ih (fun c hc => hsafe c (List.mem_cons_of_mem _ hc)) fs2 (num + 1)
            (msgs ++ smsgs) (trace ++ [(true, true)]) with
          ⟨fs3, msgs3, trace3, heq, hlen, hall⟩ |
          ⟨fs3, msgs3, pre, t, heq, hpre, ht, hle⟩
        · left
          refine ⟨fs3, smsgs ++ msgs3, (true, true) :: trace3, ?_, by simp [hlen],
            by simp [hall]⟩
          simp only [build_loop, hstep, Option.toList_some]
          rw [heq]
          have h1 : (msgs ++ smsgs) ++ msgs3 = msgs ++ (smsgs ++ msgs3) := by
            rw [List.append_assoc]
          have h2 : (trace ++ [(true, true)]) ++ trace3
              = trace ++ ((true, true) :: trace3) := by
            rw [List.append_assoc, List.singleton_append]
          have h3 : num + 1 + rest.length = num + (cfg :: rest).length := by
            simp only [List.length_cons]
            omega
          rw [h1, h2, h3]
        · right
          refine ⟨fs3, smsgs ++ msgs3, (true, true) :: pre, t, ?_, by simp [hpre], ht, ?_⟩
          · simp only [build_loop, hstep, Option.toList_some]
            rw [heq]
            have h1 : (msgs ++ smsgs) ++ msgs3 = msgs ++ (smsgs ++ msgs3) := by
              rw [List.append_assoc]
            have h2 : (trace ++ [(true, true)]) ++ (pre ++ [t])
                = trace ++ (((true, true) :: pre) ++ [t]) := by
              rw [List.append_assoc, List.singleton_append, List.cons_append]
            rw [h1, h2]
          · simp only [List.cons_append, List.length_cons, List.length_append] at hle ⊢
            omega
      · right
        refine ⟨fs2, smsgs, [], (v, false), ?_, rfl, by simp, ?_⟩
        · simp only [build_loop, hstep, Option.toList_some, List.nil_append]
        · simp only [List.nil_append, List.length_cons, List.length_nil]
          omega

/-- C1 (amended): `project.build` returns success (True) exactly when
every matched config succeeds (validation plus adapter build) — but a
failing run produces no "`<failed>` out of `<n>` configs failed!"
report: because the per-config `log.error` calls are fatal, the verb
exits with code 10 at the first config that fails validation,
build-file generation, or the adapter build (its trace is a
fully-successful prefix followed by the one failing outcome, a
validation failure halting the run exactly like a build failure), and
the aggregate tally branch never executes. -/
theorem C1_build_fail_fast (env : Env) (fs : FS)
    (fips_dir proj_dir cfg_name : String) (target : Option String)
    (configs : List RawCfg)
    (hload : (load env fips_dir proj_dir cfg_name).2 = .ok configs)
    (hne : configs ≠ [])
    (hsafe : ∀ cfg ∈ configs, build_safe cfg = true) :
    (build env fs fips_dir proj_dir cfg_name target).aggregate_failed = false
    ∧ ((build env fs fips_dir proj_dir cfg_name target).res = .ok true
        ∨ (build env fs fips_dir proj_dir cfg_name target).res = .error (.exit 10))
    ∧ ((build env fs fips_dir proj_dir cfg_name target).res = .ok true
        ↔ (build env fs fips_dir proj_dir cfg_name target).trace.length = configs.length
          ∧ (build env fs fips_dir proj_dir cfg_name target).trace.all
              (fun t => t.1 && t.2) = true)
    ∧ ((build env fs fips_dir proj_dir cfg_name target).res = .error (.exit 10) →
        ∃ pre t, (build env fs fips_dir proj_dir cfg_name target).trace = pre ++ [t]
          ∧ pre.all (fun t => t.1 && t.2) = true
          ∧ (t.1 && t.2) = false) := by
  have hsplit : load env fips_dir proj_dir cfg_name
      = ((load env fips_dir proj_dir cfg_name).1, Except.ok configs) := by
    rw [← hload]
  have hie : configs.isEmpty = false := by
    cases configs with
    | nil => exact absurd rfl hne
    | cons a l => rfl
  rcases build_loop_spec env fips_dir proj_dir (env.get_project_name_from_dir proj_dir)
      target configs hsafe fs 0 (load env fips_dir proj_dir cfg_name).1 [] with
    ⟨fs2, msgs2, trace2, heq, hlen, hall⟩ | ⟨fs2, msgs2, pre, t, heq, hpre, ht, hle⟩
  · have hbuild : build env fs fips_dir proj_dir cfg_name target
        = ⟨fs2, ((load env fips_dir proj_dir cfg_name).1 ++ msgs2) ++
            [.colored GREEN (toString configs.length ++ " configs built")], trace2,
            false, .ok true⟩ := by
      unfold build
      rw [hsplit]
      simp only [hie, Bool.false_eq_true, if_false]
      rw [heq]
      simp only [Nat.zero_add, List.nil_append]
      rw [if_neg (by simp)]
    rw [hbuild]
    refine ⟨rfl, Or.inl rfl, by simp [hlen, hall], ?_⟩
    intro hcontra
    exact absurd hcontra (by simp)
  · have hbuild : build env fs fips_dir proj_dir cfg_name target
        = ⟨fs2, (load env fips_dir proj_dir cfg_name).1 ++ msgs2, pre ++ [t],
            false, .error (.exit 10)⟩ := by
      unfold build
      rw [hsplit]
      simp only [hie, Bool.false_eq_true, if_false]
      rw [heq]
      simp only [List.nil_append]
    rw [hbuild]
    refine ⟨rfl, Or.inr rfl, ?_, fun _ => ⟨pre, t, rfl, hpre, ht⟩⟩
    constructor
    · intro hcontra
      exact absurd hcontra (by simp)
    · rintro ⟨_, hA⟩
      simp only [List.all_append, List.all_cons, List.all_nil, ht, Bool.false_and,
        Bool.and_false, Bool.false_eq_true] at hA

/-- C1 counterexample: the spec's own 3-config scenario (one config
failing validation, one failing the adapter's build).  The verb does not
report "2 out of 3 configs failed!": it exits with code 10 at the first
failing config — only that one config was ever processed — and the
aggregate tally branch never ran. -/
theorem C1_counterexample :
    (build env1 fs0 "F" "P" "*" none).res = .error (.exit 10)
    ∧ LogMsg.error "2 out of 3 configs failed!"
        ∉ (build env1 fs0 "F" "P" "*" none).msgs
    ∧ (build env1 fs0 "F" "P" "*" none).trace = [(false, false)]
    ∧ (build env1 fs0 "F" "P" "*" none).aggregate_failed = false := by
  refine ⟨by decide, by decide, by decide, by decide⟩

/-- C1 witness: applying the amended theorem at the spec's 3-config
scenario — the aggregate tally never ran and the verb exited with
code 10 at the first failing config. -/
theorem C1_witness :
    (build env1 fs0 "F" "P" "*" none).aggregate_failed = false
    ∧ (build env1 fs0 "F" "P" "*" none).res = .error (.exit 10) := by
  have h := C1_build_fail_fast env1 fs0 "F" "P" "*" none configs1
    (by decide) (by decide) (by decide)
  refine ⟨h.1, ?_⟩
  rcases h.2.1 with hok | hex
  · have hlen := (h.2.2.1.mp hok).1
    exact absurd hlen (by decide)
  · exact hex

/-- `os.makedirs` never changes file contents. -/
theorem FS.read_makedirs (fs : FS) (d p : String) :
    (fs.makedirs d).read p = fs.read p := rfl

/-- Finding a key other than the removed one is unaffected. -/
theorem find?_filter_ne (l : List (String × String)) (p q : String)
    (h : ¬ p = q) :
    (l.filter (fun kv => !(kv.1 = q : Bool))).find? (fun kv => kv.1 = p)
      = l.find? (fun kv => kv.1 = p) := by
  induction l with
  | nil => rfl
  | cons kv rest ih =>
      cases hq : (kv.1 = q : Bool) with
      | true =>
          have hqq : kv.1 = q := of_decide_eq_true hq
          have hp : (kv.1 = p : Bool) = false := by
            simp only [decide_eq_false_iff_not]
            intro hpp
            exact h (hpp ▸ hqq)
          simp [List.filter_cons, List.find?_cons, hq, hp, ih]
      | false =>
          simp only [List.filter_cons, hq, Bool.not_false, if_true, List.find?_cons]
          cases hp : (kv.1 = p : Bool) with
          | true => rfl
          | false => exact ih

/-- Reading after a write: the written path has the new content, every
other path is unchanged. -/
theorem FS.read_write (fs : FS) (q c p : String) :
    (fs.write q c).read p = if p = q then some c else fs.read p := by
  by_cases h : p = q
  · subst h
    simp [FS.write, FS.read, List.find?_cons]
  · have hq : (q = p : Bool) = false := by
      simp only [decide_eq_false_iff_not]
      intro hqp
      exact h hqp.symm
    simp only [FS.write, FS.read, List.find?_cons, hq, if_neg h]
    rw [find?_filter_ne fs.files p q h]

/-- Reading through the conditional `makedirs` of the writers. -/
theorem FS.read_mkif (fs : FS) (b : Bool) (d p : String) :
    ((if b = true then fs.makedirs d else fs)).read p = fs.read p := by
  split <;> rfl

/-- An existing file keeps `write_clion_module_files` from overwriting
anything except (when the `.iml` is absent) `misc.xml`/`modules.xml`. -/
theorem write_clion_module_files_preserve (env : Env) (fs : FS)
    (proj_dir : String) (cfg : RawCfg) (p c : String)
    (hp : fs.read p = some c) :
    (write_clion_module_files env fs proj_dir cfg).read p = some c
    ∨ ((p = proj_dir ++ "/.idea/misc.xml" ∨ p = proj_dir ++ "/.idea/modules.xml")
        ∧ fs.isfile (proj_dir ++ "/.idea/"
            ++ env.get_project_name_from_dir proj_dir ++ ".iml") = false) := by
  unfold write_clion_module_files
  by_cases hex : fs.pathexists (proj_dir ++ "/.idea/"
      ++ env.get_project_name_from_dir proj_dir ++ ".iml") = true
  · left
    simp [hex, hp]
  · have hiff : fs.isfile (proj_dir ++ "/.idea/"
        ++ env.get_project_name_from_dir proj_dir ++ ".iml") = false := by
      cases hf : fs.isfile (proj_dir ++ "/.idea/"
          ++ env.get_project_name_from_dir proj_dir ++ ".iml") with
      | false => rfl
      | true => exact absurd (by simp [FS.pathexists, hf]) hex
    by_cases hm : p = proj_dir ++ "/.idea/misc.xml"
    · exact Or.inr ⟨Or.inl hm, hiff⟩
    by_cases hmod : p = proj_dir ++ "/.idea/modules.xml"
    · exact Or.inr ⟨Or.inr hmod, hiff⟩
    left
    have hpiml : ¬ p = proj_dir ++ "/.idea/"
        ++ env.get_project_name_from_dir proj_dir ++ ".iml" := by
      intro hpe
      apply hex
      simp [FS.pathexists, FS.isfile, ← hpe, hp]
    simp [hex, FS.read_write, hm, hmod, hpiml, hp]

/-- `write_clion_workspace_file` never overwrites an existing file. -/
theorem write_clion_workspace_file_preserve (env : Env) (fs : FS)
    (proj_dir : String) (cfg : RawCfg) (fs2 : FS)
    (h : write_clion_workspace_file env fs proj_dir cfg = .ok fs2)
    (p c : String) (hp : fs.read p = some c) :
    fs2.read p = some c := by
  unfold write_clion_workspace_file at h
  cases hn : pyGet cfg "name" with
  | error e => rw [hn] at h; cases h
  | ok nv =>
      rw [hn] at h
      by_cases hex : fs.pathexists (proj_dir ++ "/.idea/workspace.xml") = true
      · simp only [hex, eq_self_iff_true, if_true] at h
        injection h with h2
        subst h2
        exact hp
      · simp only [hex, if_false] at h
        injection h with h2
        subst h2
        have hpws : ¬ p = proj_dir ++ "/.idea/workspace.xml" := by
          intro hpe
          apply hex
          simp [FS.pathexists, FS.isfile, ← hpe, hp]
        rw [FS.read_write, if_neg hpws]
        exact hp

/-- `clion.write_workspace_settings` can only overwrite `misc.xml` and
`modules.xml`, and only when the `.iml` did not exist as a file. -/
theorem clion_write_workspace_settings_preserve (env : Env) (fs : FS)
    (proj_dir : String) (cfg : RawCfg) (msgs : List LogMsg) (fs2 : FS)
    (h : clion_write_workspace_settings env fs proj_dir cfg = (msgs, .ok fs2))
    (p c : String) (hp : fs.read p = some c) :
    fs2.read p = some c
    ∨ ((p = proj_dir ++ "/.idea/misc.xml" ∨ p = proj_dir ++ "/.idea/modules.xml")
        ∧ fs.isfile (proj_dir ++ "/.idea/"
            ++ env.get_project_name_from_dir proj_dir ++ ".iml") = false) := by
  unfold clion_write_workspace_settings at h
  have hws := congrArg Prod.snd h
  simp only at hws
  have hp1 : ((if (!fs.isdir (proj_dir ++ "/.idea")) = true then
      fs.makedirs (proj_dir ++ "/.idea") else fs)).read p = some c := by
    split <;> exact hp
  rcases write_clion_module_files_preserve env
      (if (!fs.isdir (proj_dir ++ "/.idea")) = true then
        fs.makedirs (proj_dir ++ "/.idea") else fs)
      proj_dir cfg p c hp1 with hkeep | hover
  · exact Or.inl (write_clion_workspace_file_preserve env _ proj_dir cfg fs2 hws p c hkeep)
  · refine Or.inr ⟨hover.1, ?_⟩
    have h2 := hover.2
    split at h2 <;> exact h2

/-- `vscode.write_workspace_settings` (spec-modelled) never overwrites an
existing file. -/
theorem vscode_write_preserve :
    ∀ (files : List (String × String)) (fs : FS) (p c : String),
      fs.read p = some c →
      (files.foldl (fun a pc => if a.pathexists pc.1 then a else a.write pc.1 pc.2) fs).read p
        = some c := by
  intro files
  induction files with
  | nil => intro fs p c hp; exact hp
  | cons qv rest ih =>
      intro fs p c hp
      simp only [List.foldl_cons]
      by_cases hex : fs.pathexists qv.1 = true
      · rw [if_pos hex]
        exact ih fs p c hp
      · rw [if_neg hex]
        apply ih
        have hpq : ¬ p = qv.1 := by
          intro hpe
          apply hex
          simp [FS.pathexists, FS.isfile, ← hpe, hp]
        rw [FS.read_write, if_neg hpq]
        exact hp

/-- Shape of the generate tail: the adapter is invoked, the IDE writers
are selected purely by build-tool identity (regardless of the cmake
result), the clion writers can only overwrite `misc.xml`/`modules.xml`
(and only when the `.iml` is absent), and the vscode writer overwrites
nothing. -/
theorem gen_project_generate_spec (env : Env) (fs : FS)
    (fips_dir proj_dir : String) (cfg : RawCfg) (nv : YVal)
    (build_dir : String) (defines : List (String × String))
    (pathv pv btv : YVal)
    (hname : cfg.get "name" = some nv)
    (hpath : cfg.get "path" = some pathv)
    (hplat : cfg.get "platform" = some pv)
    (hbt : cfg.get "build_tool" = some btv) :
    (gen_project_generate env fs fips_dir proj_dir cfg nv build_dir defines).gen_invoked = true
    ∧ (gen_project_generate env fs fips_dir proj_dir cfg nv build_dir defines).vscode_invoked
        = decide (btv = .str "vscode_cmake")
    ∧ (gen_project_generate env fs fips_dir proj_dir cfg nv build_dir defines).clion_invoked
        = decide (btv = .str "clion")
    ∧ (btv = .str "clion" →
        ∀ p c, fs.read p = some c →
          ((gen_project_generate env fs fips_dir proj_dir cfg nv build_dir defines).fs.read p
              = some c
            ∨ ((p = proj_dir ++ "/.idea/misc.xml" ∨ p = proj_dir ++ "/.idea/modules.xml")
                ∧ fs.isfile (proj_dir ++ "/.idea/"
                    ++ env.get_project_name_from_dir proj_dir ++ ".iml") = false)))
    ∧ (btv = .str "vscode_cmake" →
        ∀ p c, fs.read p = some c →
          (gen_project_generate env fs fips_dir proj_dir cfg nv build_dir defines).fs.read p
            = some c) := by
  obtain ⟨tres, htres⟩ := get_toolchain_ok env fs fips_dir proj_dir cfg pv hplat
  simp only [gen_project_generate, pyGet, hpath, htres, hbt]
  by_cases hcl : btv = YVal.str "clion"
  · subst hcl
    obtain ⟨fs2, h2⟩ := clion_write_ok env fs proj_dir cfg nv hname
    rw [if_neg (show ¬ (YVal.str "clion" = YVal.str "ninja") from by decide),
      if_neg (show ¬ (YVal.str "clion" = YVal.str "vscode_cmake") from by decide),
      if_pos (rfl : YVal.str "clion" = YVal.str "clion"), h2]
    refine ⟨rfl, rfl, rfl, ?_, ?_⟩
    · intro _ p c hp
      exact clion_write_workspace_settings_preserve env fs proj_dir cfg _ fs2 h2 p c hp
    · intro hvs
      exact absurd hvs (by decide)
  · by_cases hvs : btv = YVal.str "vscode_cmake"
    · subst hvs
      rw [if_neg (show ¬ (YVal.str "vscode_cmake" = YVal.str "ninja") from by decide),
        if_pos (rfl : YVal.str "vscode_cmake" = YVal.str "vscode_cmake"),
        if_neg (show ¬ (YVal.str "vscode_cmake" = YVal.str "clion") from by decide)]
      refine ⟨rfl, rfl, rfl, ?_, ?_⟩
      · intro hcl2
        exact absurd hcl2 (by decide)
      · intro _ p c hp
        exact vscode_write_preserve env.vscode_files fs p c hp
    · rw [if_neg hcl]
      exact ⟨rfl, rfl, (decide_eq_false hcl).symm, fun h => absurd h hcl,
        fun h => absurd h hvs⟩

set_option maxRecDepth 16384 in
/-- C8 counterexample: the claim fails on the code in both respects.
With an always-failing cmake generate and a clion config, the clion
writer still runs and writes `workspace.xml` although the adapter's
generate step failed; and with `.idea/misc.xml` pre-existing (and no
`.iml`), the module-files writer overwrites it. -/
theorem C8_counterexample :
    ((gen_project env8 fs0 "F" "P" cfg8 true).res = .ok false
      ∧ (gen_project env8 fs0 "F" "P" cfg8 true).clion_invoked = true
      ∧ (gen_project env8 fs0 "F" "P" cfg8 true).fs.read "P/.idea/workspace.xml"
          = some (clion_workspace_content "proj" "linux-clion-debug"))
    ∧ ((gen_project envT fs8b "F" "P" cfg8 true).fs.read "P/.idea/misc.xml"
        = some clion_misc_content
      ∧ fs8b.read "P/.idea/misc.xml" = some "pre-existing"
      ∧ clion_misc_content ≠ "pre-existing") := by
  refine ⟨⟨by decide, by decide, by decide⟩, by decide, by decide, by decide⟩

/-- C8 (amended): during generate the IDE workspace-file writers run
whenever the adapter's generate step is invoked — regardless of whether
it succeeded — selected by build-tool identity; for the clion tool the
only files ever overwritten are `misc.xml` and `modules.xml`, and only
when the project's `.iml` file does not already exist (in particular
`workspace.xml` and the `.iml` are never overwritten); the (spec-modelled)
vscode writer overwrites nothing. -/
theorem C8_amended_ide_writers (env : Env) (fs : FS)
    (fips_dir proj_dir : String) (cfg : RawCfg) (force : Bool)
    (nv gv pv pathv btv : YVal)
    (hname : cfg.get "name" = some nv) (hgen : cfg.get "generator" = some gv)
    (hplat : cfg.get "platform" = some pv) (hpath : cfg.get "path" = some pathv)
    (hbt : cfg.get "build_tool" = some btv) :
    ((gen_project env fs fips_dir proj_dir cfg force).vscode_invoked
        = ((gen_project env fs fips_dir proj_dir cfg force).gen_invoked
            && decide (btv = .str "vscode_cmake")))
    ∧ ((gen_project env fs fips_dir proj_dir cfg force).clion_invoked
        = ((gen_project env fs fips_dir proj_dir cfg force).gen_invoked
            && decide (btv = .str "clion")))
    ∧ (btv = .str "clion" →
        ∀ p c, fs.read p = some c →
          ((gen_project env fs fips_dir proj_dir cfg force).fs.read p = some c
            ∨ ((p = proj_dir ++ "/.idea/misc.xml" ∨ p = proj_dir ++ "/.idea/modules.xml")
                ∧ fs.isfile (proj_dir ++ "/.idea/"
                    ++ env.get_project_name_from_dir proj_dir ++ ".iml") = false)))
    ∧ (btv = .str "vscode_cmake" →
        ∀ p c, fs.read p = some c →
          (gen_project env fs fips_dir proj_dir cfg force).fs.read p = some c) := by
  simp only [gen_project, pyGet, hname, hgen, hplat]
  repeat' split
  all_goals
    first
      | exact ⟨rfl, rfl, fun _ p c hp => Or.inl hp, fun _ p c hp => hp⟩
      | (rename_i hdir hdoit
         obtain ⟨g1, g2, g3, g4, g5⟩ := gen_project_generate_spec env
           (fs.makedirs (env.get_build_dir fips_dir
             (env.get_project_name_from_dir proj_dir) nv.pyStr))
           fips_dir proj_dir cfg nv
           (env.get_build_dir fips_dir (env.get_project_name_from_dir proj_dir) nv.pyStr)
           (gen_defines env gv pv) pathv pv btv hname hpath hplat hbt
         exact ⟨by rw [g1, g2, Bool.true_and], by rw [g1, g3, Bool.true_and],
           fun hc p c hp => g4 hc p c hp, fun hv p c hp => g5 hv p c hp⟩)
      | (rename_i hdir hdoit
         obtain ⟨g1, g2, g3, g4, g5⟩ := gen_project_generate_spec env fs
           fips_dir proj_dir cfg nv
           (env.get_build_dir fips_dir (env.get_project_name_from_dir proj_dir) nv.pyStr)
           (gen_defines env gv pv) pathv pv btv hname hpath hplat hbt
         exact ⟨by rw [g1, g2, Bool.true_and], by rw [g1, g3, Bool.true_and],
           fun hc p c hp => g4 hc p c hp, fun hv p c hp => g5 hv p c hp⟩)

/-- C8 amended witness: clion config, pre-existing `workspace.xml` — the
writer runs (regardless of the adapter result) and the pre-existing
`workspace.xml` keeps its contents. -/
theorem C8_amended_witness :
    (gen_project env8 fs8w "F" "P" cfg8 true).clion_invoked = true
    ∧ (gen_project env8 fs8w "F" "P" cfg8 true).fs.read "P/.idea/workspace.xml"
        = some "keep" := by
  have h := C8_amended_ide_writers env8 fs8w "F" "P" cfg8 true
    (.str "linux-clion-debug") (.str "Default") (.str "linux")
    (.str "P/configs/linux-clion-debug.yml") (.str "clion")
    rfl rfl rfl rfl rfl
  constructor
  · rw [h.2.1]
    decide
  · rcases h.2.2.1 rfl "P/.idea/workspace.xml" "keep" rfl with hkeep | hover
    · exact hkeep
    · rcases hover.1 with hbad | hbad <;> exact absurd hbad (by decide)

end Fips
